import Mathlib

/-!
Shallow embedding of `src/components/data_transformation.py`
(class `DataTransformation` of the Real_Estate_Investment_Valuation_App
repository) and proofs about it.

Modelling conventions:
* a pandas `DataFrame` is an ordered list of named columns, each column an
  ordered list of cells;
* a cell is a rational number, the missing marker `NaN`, a string, or a
  boolean (the dtype produced by `pd.get_dummies`); IEEE-754 rounding is
  idealised away: float arithmetic is modelled as exact arithmetic on `ℚ`
  (all quantities the claims mention are exactly representable);
* comparisons against `NaN` are `False`, as in pandas/NumPy;
* `np.where(cond, col, scalar)` is an elementwise conditional;
* `value_counts().nlargest(k).index` is modelled as a stable sort of the
  distinct non-missing values by descending count followed by `take k`
  (ties are resolved by the order `List.dedup` produces, which no claim
  depends on: the claims about top-K assume strictly distinct counts);
* `pd.get_dummies(df, columns=[c], drop_first=True)` removes column `c`,
  sorts its distinct non-missing values, drops the first, and appends one
  boolean indicator column per remaining value.  The dummy-column order on
  mixed number/string data follows the order `cellLe` below: numbers before
  the string sentinel, numbers ordered numerically.  (pandas casts numbers
  to their decimal strings first, so which number is dropped as the
  reference level can differ from pandas when numeric order disagrees with
  lexicographic order of the printed floats; no claim depends on which
  reference level is dropped.)
* python exceptions are modelled with `Except`; `CustomException(e, sys)`
  is the constructor `PyErr.custom e`.  File I/O (`pd.read_csv`, `to_csv`,
  `os.makedirs`) is external to the transform logic: the orchestrator is
  modelled as a function of the two already-loaded tables.
-/

namespace ZillowTransform

/-- A single cell of a pandas column: an (exact) number, the missing
marker NaN, a string, or a boolean produced by one-hot encoding. -/
inductive Cell where
  | num (q : ℚ)
  | nan
  | str (s : String)
  | bool (b : Bool)
deriving DecidableEq

/-- A pandas column: an ordered list of cells. -/
abbrev Col := List Cell

/-- A pandas DataFrame: an ordered association list of named columns. -/
abbrev DataFrame := List (String × Col)

/-- The column labels of a DataFrame (`df.columns`). -/
def names (df : DataFrame) : List String := df.map Prod.fst

/-- Column selection `df[name]`; `none` models a `KeyError`.  Labels are
unique in every table this module builds, so taking the first match loses
nothing. -/
def getCol : DataFrame → String → Option Col
  | [], _ => none
  | p :: df, name => if p.1 = name then some p.2 else getCol df name

/-- Python exceptions relevant to this module.  `custom e` is
`CustomException(e, sys)`, the project-wide wrapper that carries the
original cause `e`. -/
inductive PyErr where
  | keyError (name : String)
  | custom (e : PyErr)
deriving DecidableEq

/-- Column selection in the exception monad: `df[name]` raises `KeyError`
when the label is absent. -/
def getColE (df : DataFrame) (name : String) : Except PyErr Col :=
  match getCol df name with
  | some c => Except.ok c
  | none => Except.error (PyErr.keyError name)

/-- Column assignment `df[name] = c`: replaces the column in place when the
label exists, otherwise appends it on the right, as pandas does. -/
def setCol : DataFrame → String → Col → DataFrame
  | [], name, c => [(name, c)]
  | p :: df, name, c => if p.1 = name then (name, c) :: df else p :: setCol df name c

/-- Removal of every column whose label is listed (`df.drop(columns=ns)`
after the label check has succeeded). -/
def eraseCols (df : DataFrame) (ns : List String) : DataFrame :=
  df.filter (fun p => decide (p.1 ∉ ns))

/-- `df.drop(columns=ns)`: raises `KeyError` when a label is absent. -/
def dropColsE (df : DataFrame) (ns : List String) : Except PyErr DataFrame :=
  match ns.find? (fun n => decide (n ∉ names df)) with
  | some n => Except.error (PyErr.keyError n)
  | none => Except.ok (eraseCols df ns)

/-- Numeric comparison `cell > q`; comparisons involving NaN (or any
non-numeric cell) are false, as in pandas. -/
def cellGt (c : Cell) (q : ℚ) : Bool :=
  match c with
  | Cell.num v => decide (q < v)
  | _ => false

/-- Numeric comparison `cell == q`; false on NaN, as in pandas. -/
def cellEq (c : Cell) (q : ℚ) : Bool :=
  match c with
  | Cell.num v => decide (v = q)
  | _ => false

/-- Elementwise addition with NaN propagation. -/
def addCell (a b : Cell) : Cell :=
  match a, b with
  | Cell.num x, Cell.num y => Cell.num (x + y)
  | _, _ => Cell.nan

/-- Addition of a scalar with NaN propagation (`col + q`). -/
def addConst (c : Cell) (q : ℚ) : Cell :=
  match c with
  | Cell.num v => Cell.num (v + q)
  | _ => Cell.nan

/-- Subtraction of a cell from a scalar with NaN propagation (`q - col`). -/
def subConst (q : ℚ) (c : Cell) : Cell :=
  match c with
  | Cell.num v => Cell.num (q - v)
  | _ => Cell.nan

/-- Elementwise division with NaN propagation (`col / col`). -/
def divCell (a b : Cell) : Cell :=
  match a, b with
  | Cell.num x, Cell.num y => Cell.num (x / y)
  | _, _ => Cell.nan

/-- `col.fillna(q)`. -/
def fillna (c : Col) (q : ℚ) : Col :=
  c.map (fun x => if x = Cell.nan then Cell.num q else x)

/-- Conversion of a boolean condition to the 0/1 integer produced by
`.astype(int)`. -/
def boolToNum (b : Bool) : Cell := Cell.num (if b then 1 else 0)

/-- Elementwise three-argument zip, used for `np.where` on columns. -/
def zipWith3 {α β γ δ : Type} (f : α → β → γ → δ) :
    List α → List β → List γ → List δ
  | a :: as, b :: bs, c :: cs => f a b c :: zipWith3 f as bs cs
  | _, _, _ => []

/-- `np.where(mask, a, b)` on columns. -/
def npWhere (mask : List Bool) (a b : Col) : Col :=
  zipWith3 (fun m x y => if m then x else y) mask a b

/-- Masking cells to NaN where the condition holds
(`df.loc[mask, col] = np.nan`). -/
def maskNan (mask : List Bool) (c : Col) : Col :=
  List.zipWith (fun m x => if m then Cell.nan else x) mask c

/-- Stable insertion of a rational into a sorted list. -/
def insertSortedQ (x : ℚ) : List ℚ → List ℚ
  | [] => [x]
  | y :: ys => if x ≤ y then x :: y :: ys else y :: insertSortedQ x ys

/-- Insertion sort of a list of rationals, ascending. -/
def sortQ (l : List ℚ) : List ℚ := l.foldr insertSortedQ []

/-- Median of a list of rationals in the pandas sense: the middle element
of the sorted list, or the mean of the two middle elements; `none` on the
empty list (pandas returns NaN there). -/
def median (xs : List ℚ) : Option ℚ :=
  let s := sortQ xs
  if s.length = 0 then none
  else if s.length % 2 = 1 then some (s.getD (s.length / 2) 0)
  else some ((s.getD (s.length / 2 - 1) 0 + s.getD (s.length / 2) 0) / 2)

/-- The non-missing values of `val` in the group of rows whose `key` cell
equals `k` (the data a pandas `groupby(key)[val]` group holds). -/
def groupVals (key val : Col) (k : ℚ) : List ℚ :=
  (key.zip val).filterMap (fun p =>
    match p with
    | (Cell.num k2, Cell.num v) => if k2 = k then some v else none
    | _ => none)

/-- `df.groupby(key)[val].transform(lambda x: x.fillna(x.median()))`: each
missing value is filled with the median of the non-missing values sharing
its key; rows whose key is missing are excluded from every group and come
back as NaN (pandas `dropna=True` grouping); a group with no valid median
leaves NaN. -/
def groupMedianImpute (key val : Col) : Col :=
  List.zipWith (fun kc vc =>
    match kc with
    | Cell.num k =>
        match vc with
        | Cell.nan =>
            match median (groupVals key val k) with
            | some m => Cell.num m
            | none => Cell.nan
        | v => v
    | _ => Cell.nan) key val

/-- Occurrence count of a value in a column (`value_counts()` entry). -/
def countCell (c : Col) (x : Cell) : Nat := c.count x

/-- The non-missing cells of a column (`value_counts` ignores NaN). -/
def nonNan (c : Col) : Col := c.filter (fun x => decide (x ≠ Cell.nan))

/-- Stable insertion of a cell into a list, keeping earlier elements first
on ties. -/
def insertSorted (le : Cell → Cell → Bool) (x : Cell) : List Cell → List Cell
  | [] => [x]
  | y :: ys => if le x y then x :: y :: ys else y :: insertSorted le x ys

/-- Stable insertion sort of a cell list by a boolean comparison. -/
def sortByLe (le : Cell → Cell → Bool) (l : List Cell) : List Cell :=
  l.foldr (insertSorted le) []

/-- `df[col].value_counts().nlargest(k).index`: the `k` most frequent
non-missing values, most frequent first. -/
def topK (c : Col) (k : Nat) : List Cell :=
  (sortByLe (fun a b => decide (countCell c b ≤ countCell c a)) (nonNan c).dedup).take k

/-- Ordering used to sort the distinct values of a column being one-hot
encoded: numbers numerically, strings lexicographically, numbers before
the string sentinel (see the header note on the reference level). -/
def cellLe (a b : Cell) : Bool :=
  match a, b with
  | Cell.num x, Cell.num y => decide (x ≤ y)
  | Cell.num _, _ => true
  | Cell.str _, Cell.num _ => false
  | Cell.str s, Cell.str t => charListLe s.data t.data
  | Cell.str _, _ => true
  | Cell.nan, _ => true
  | Cell.bool x, Cell.bool y => !x || y
  | Cell.bool _, _ => false
where
  /-- Lexicographic comparison of strings as character lists. -/
  charListLe : List Char → List Char → Bool
  | [], _ => true
  | _ :: _, [] => false
  | a :: as, b :: bs =>
      if a = b then charListLe as bs else decide (a < b)

/-- The sorted distinct non-missing values of a column: the categories
`pd.get_dummies` derives from it, reference level first. -/
def dummyCats (c : Col) : List Cell := sortByLe cellLe (nonNan c).dedup

/-- The printed form of a cell, used in generated dummy-column labels. -/
def showCell : Cell → String
  | Cell.num q => toString q
  | Cell.str s => s
  | Cell.bool b => toString b
  | Cell.nan => "nan"

/-- The label of the indicator column generated for one category. -/
def dummyName (name : String) (cat : Cell) : String :=
  name ++ "_" ++ showCell cat

/-- `pd.get_dummies(df, columns=[name], drop_first=True)`: drops the named
column, drops the first of its sorted distinct non-missing values as the
reference level, and appends one boolean indicator column per remaining
category (NaN cells get 0 in every indicator). -/
def getDummies (df : DataFrame) (name : String) : Except PyErr DataFrame := do
  let c ← getColE df name
  let cats := (dummyCats c).drop 1
  Except.ok (eraseCols df [name] ++
    cats.map (fun cat => (dummyName name cat, c.map (fun x => Cell.bool (x = cat)))))

/-! ## The transform stages of `feature_engineering`, in source order. -/

/-- Fix room count (`data_transformation.py` lines 69-74):
`df["roomcnt_fixed"] = np.where(df["roomcnt"] > 0, df["roomcnt"],
df["bedroomcnt"] + df["bathroomcnt"] + 1)` then `df.drop(columns=["roomcnt"])`. -/
def fixRoomCount (df : DataFrame) : Except PyErr DataFrame := do
  let room ← getColE df ("roomcnt")
  let bed ← getColE df ("bedroomcnt")
  let bath ← getColE df ("bathroomcnt")
  let fixed := npWhere (room.map (fun c => cellGt c 0)) room
      ((List.zipWith addCell bed bath).map (fun c => addConst c 1))
  dropColsE (setCol df ("roomcnt_fixed") fixed) [("roomcnt")]

/-- The garage sentinel condition of line 82:
`(df["garagetotalsqft"] == 0) & (df["garagecarcnt"] > 0)`. -/
def garageMask (area cnt : Col) : List Bool :=
  List.zipWith (fun a c => cellEq a 0 && cellGt c 0) area cnt

/-- Clean garage sqft (lines 82-84): mark the sentinel cells missing, then
fill each missing garage area with the median area of its
`garagecarcnt` group. -/
def cleanGarage (df : DataFrame) : Except PyErr DataFrame := do
  let area ← getColE df ("garagetotalsqft")
  let cnt ← getColE df ("garagecarcnt")
  let area1 := maskNan (garageMask area cnt) area
  let df1 := setCol df ("garagetotalsqft") area1
  Except.ok (setCol df1 ("garagetotalsqft") (groupMedianImpute cnt area1))

/-- The epsilon added to every ratio denominator (`1e-5`). -/
def eps : ℚ := 1 / 100000

/-- Domain-driven engineered features (lines 90-94): the five derived
ratio/age columns. -/
def addDerived (df : DataFrame) : Except PyErr DataFrame := do
  let tax ← getColE df ("taxvaluedollarcnt")
  let sqft ← getColE df ("calculatedfinishedsquarefeet")
  let df := setCol df ("price_per_sqft")
      (List.zipWith divCell tax (sqft.map (fun c => addConst c eps)))
  let yb ← getColE df ("yearbuilt")
  let df := setCol df ("age_of_home") (yb.map (fun c => subConst 2025 c))
  let bath ← getColE df ("bathroomcnt")
  let bed ← getColE df ("bedroomcnt")
  let df := setCol df ("bath_per_bed")
      (List.zipWith divCell bath (bed.map (fun c => addConst c eps)))
  let roomf ← getColE df ("roomcnt_fixed")
  let sqft2 ← getColE df ("calculatedfinishedsquarefeet")
  let df := setCol df ("rooms_per_sqft")
      (List.zipWith divCell roomf (sqft2.map (fun c => addConst c eps)))
  let area ← getColE df ("garagetotalsqft")
  let sqft3 ← getColE df ("calculatedfinishedsquarefeet")
  Except.ok (setCol df ("garage_sqft_ratio")
      (List.zipWith divCell area (sqft3.map (fun c => addConst c eps))))

/-- Binary flags (lines 100-102): `multi_unit = (unitcnt > 1).astype(int)`
and `has_garage = ((garagecarcnt.fillna(0) > 0) |
(garagetotalsqft.fillna(0) > 0)).astype(int)`. -/
def addFlags (df : DataFrame) : Except PyErr DataFrame := do
  let unit ← getColE df ("unitcnt")
  let df := setCol df ("multi_unit") (unit.map (fun c => boolToNum (cellGt c 1)))
  let cnt ← getColE df ("garagecarcnt")
  let area ← getColE df ("garagetotalsqft")
  Except.ok (setCol df ("has_garage")
      (List.zipWith (fun a b => boolToNum (cellGt a 0 || cellGt b 0))
        (fillna cnt 0) (fillna area 0)))

/-- One iteration of the high-cardinality loop (lines 108-112): keep the
top-`k` values of the column, send everything else to the numeric sentinel
`-1`, and one-hot encode the derived `_top` column. -/
def encodeTopKNum (df : DataFrame) (p : String × Nat) : Except PyErr DataFrame := do
  let c ← getColE df p.1
  let tv := topK c p.2
  let mapped := c.map (fun x => if x ∈ tv then x else Cell.num (-1))
  getDummies (setCol df (p.1 ++ "_top") mapped) (p.1 ++ "_top")

/-- The high-cardinality loop over the three region-id columns, K = 50. -/
def encodeHighCard (df : DataFrame) : Except PyErr DataFrame :=
  [(("regionidcity"), 50), (("regionidzip"), 50), (("regionidneighborhood"), 50)].foldlM
    encodeTopKNum df

/-- The string sentinel used by the two land-use encodings. -/
def otherCell : Cell := Cell.str ("other")

/-- `np.where(df[col].isin(top_vals), df[col], "other")` with
`top_vals = topK c k`. -/
def topMapOther (c : Col) (k : Nat) : Col :=
  let tv := topK c k
  c.map (fun x => if x ∈ tv then x else otherCell)

/-- Encode `propertycountylandusecode` (lines 118-121): top-15 values kept,
the rest sent to `"other"`, then one-hot with the first level dropped. -/
def encodeLanduseCode (df : DataFrame) : Except PyErr DataFrame := do
  let c ← getColE df ("propertycountylandusecode")
  getDummies (setCol df ("propertycountylanduse_top") (topMapOther c 15))
    ("propertycountylanduse_top")

/-- Encode `propertylandusetypeid` (lines 127-130): the same pattern with
K = 5. -/
def encodeLanduseType (df : DataFrame) : Except PyErr DataFrame := do
  let c ← getColE df ("propertylandusetypeid")
  getDummies (setCol df ("propertylandusetype_top") (topMapOther c 5))
    ("propertylandusetype_top")

/-- The low-cardinality columns one-hot encoded directly (line 136). -/
def lowCardCols : List String :=
  [("airconditioningtypeid"), ("heatingorsystemtypeid"), ("fips"), ("regionidcounty")]

/-- `pd.get_dummies(df, columns=low_card, drop_first=True)` (line 137). -/
def encodeLowCard (df : DataFrame) : Except PyErr DataFrame :=
  lowCardCols.foldlM getDummies df

/-- Drop `propertyzoningdesc` when present (lines 143-145). -/
def dropZoning (df : DataFrame) : DataFrame :=
  if ("propertyzoningdesc") ∈ names df then eraseCols df [("propertyzoningdesc")] else df

/-- The body of the `try` block of `feature_engineering`: the transform
steps in source order. -/
def rawFeatureEngineering (df : DataFrame) : Except PyErr DataFrame := do
  let df ← fixRoomCount df
  let df ← cleanGarage df
  let df ← addDerived df
  let df ← addFlags df
  let df ← encodeHighCard df
  let df ← encodeLanduseCode df
  let df ← encodeLanduseType df
  let df ← encodeLowCard df
  Except.ok (dropZoning df)

/-- `DataTransformation.feature_engineering`: the transform body with its
`except` clause, which re-raises any failure as `CustomException(e, sys)`. -/
def feature_engineering (df : DataFrame) : Except PyErr DataFrame :=
  (rawFeatureEngineering df).mapError PyErr.custom

/-- The target column name (`taxvaluedollarcnt`, line 179). -/
def targetCol : String := ("taxvaluedollarcnt")

/-- The body of the `try` block of `initiate_data_transformation` after the
two tables are loaded: transform each table, split off the target column.
Persisting `concat(X, y)` to CSV is external I/O and not modelled. -/
def rawInitiate (train test : DataFrame) :
    Except PyErr (DataFrame × DataFrame × Col × Col) := do
  let trainT ← feature_engineering train
  let testT ← feature_engineering test
  let xTrain ← dropColsE trainT [targetCol]
  let yTrain ← getColE trainT targetCol
  let xTest ← dropColsE testT [targetCol]
  let yTest ← getColE testT targetCol
  Except.ok (xTrain, xTest, yTrain, yTest)

/-- `DataTransformation.initiate_data_transformation` on two loaded tables:
the orchestration body with its `except` clause, which wraps any failure in
`CustomException(e, sys)`. -/
def initiate_data_transformation (train test : DataFrame) :
    Except PyErr (DataFrame × DataFrame × Col × Col) :=
  (rawInitiate train test).mapError PyErr.custom

/-- Well-formedness: every column of the DataFrame has exactly `n` rows. -/
def WF (df : DataFrame) (n : Nat) : Prop := ∀ p ∈ df, p.2.length = n

instance (df : DataFrame) (n : Nat) : Decidable (WF df n) := by
  unfold WF; infer_instance

/-- `len(df)`: the row count of a DataFrame (the length of its first
column; 0 for a table with no columns). -/
def nrows (df : DataFrame) : Nat :=
  match df with
  | [] => 0
  | p :: _ => p.2.length

/-- The numeric value of a cell, reading any non-numeric cell (in
particular NaN) as 0; used to state the fillna-then-compare flags. -/
def asNumOrZero : Cell → ℚ
  | Cell.num q => q
  | _ => 0

/-! ## Concrete tables used to instantiate the theorems. -/

/-- A two-row table exercising both branches of the room-count repair. -/
def roomDf : DataFrame :=
  [(("roomcnt"), [Cell.num 0, Cell.num 5]),
   (("bedroomcnt"), [Cell.num 2, Cell.num 3]),
   (("bathroomcnt"), [Cell.num 1, Cell.num 2])]

/-- The room-count repair output on `roomDf`. -/
def roomOut : DataFrame := (fixRoomCount roomDf).toOption.getD []

/-- The repaired room-count column of `roomOut`. -/
def roomFixedCol : Col := (getCol roomOut ("roomcnt_fixed")).getD []

/-- The garage scenario of the spec: `garagecarcnt = 2` throughout, areas
`{0 (sentinel), 400, 600}`. -/
def garageDf : DataFrame :=
  [(("garagetotalsqft"), [Cell.num 0, Cell.num 400, Cell.num 600]),
   (("garagecarcnt"), [Cell.num 2, Cell.num 2, Cell.num 2])]

/-- The garage-cleanup output on `garageDf`. -/
def garageOut : DataFrame := (cleanGarage garageDf).toOption.getD []

/-- The cleaned garage-area column of `garageOut`. -/
def garageAreaCol : Col := (getCol garageOut ("garagetotalsqft")).getD []

/-- A three-row table exercising the binary flags: a missing car count with
zero area, a zero car count with positive area, and a missing unit count. -/
def flagsDf : DataFrame :=
  [(("unitcnt"), [Cell.num 2, Cell.num 1, Cell.nan]),
   (("garagecarcnt"), [Cell.nan, Cell.num 0, Cell.num 0]),
   (("garagetotalsqft"), [Cell.num 0, Cell.num 300, Cell.num 0])]

/-- The flags-stage output on `flagsDf`. -/
def flagsOut : DataFrame := (addFlags flagsDf).toOption.getD []

/-- The `multi_unit` column of `flagsOut`. -/
def multiUnitCol : Col := (getCol flagsOut ("multi_unit")).getD []

/-- The `has_garage` column of `flagsOut`. -/
def hasGarageCol : Col := (getCol flagsOut ("has_garage")).getD []

/-- A one-row table exercising the derived features, with
`calculatedfinishedsquarefeet = 0` for the epsilon-safety case. -/
def derivedDf : DataFrame :=
  [(("taxvaluedollarcnt"), [Cell.num 100000]),
   (("calculatedfinishedsquarefeet"), [Cell.num 0]),
   (("yearbuilt"), [Cell.num 2000]),
   (("bathroomcnt"), [Cell.num 3]),
   (("bedroomcnt"), [Cell.num 2]),
   (("roomcnt_fixed"), [Cell.num 5]),
   (("garagetotalsqft"), [Cell.num 400])]

/-- The derived-features output on `derivedDf`. -/
def derivedOut : DataFrame := (addDerived derivedDf).toOption.getD []

/-- A 28-row land-use-type column with seven distinct values of strictly
decreasing frequencies (7, 6, 5, 4, 3, 2, 1 occurrences of 1..7). -/
def landuseCol : Col :=
  ([1, 1, 1, 1, 1, 1, 1, 2, 2, 2, 2, 2, 2, 3, 3, 3, 3, 3,
    4, 4, 4, 4, 5, 5, 5, 6, 6, 7] : List ℚ).map Cell.num

/-- A single-column table holding `landuseCol`. -/
def landuseDf : DataFrame := [(("propertylandusetypeid"), landuseCol)]

/-- The land-use-type encoding output on `landuseDf`. -/
def landuseOut : DataFrame := (encodeLanduseType landuseDf).toOption.getD []

/-- A one-row table with the full column set required by the transform. -/
def sampleTrain : DataFrame :=
  [(("roomcnt"), [Cell.num 5]),
   (("bedroomcnt"), [Cell.num 2]),
   (("bathroomcnt"), [Cell.num 1]),
   (("garagetotalsqft"), [Cell.num 300]),
   (("garagecarcnt"), [Cell.num 1]),
   (("taxvaluedollarcnt"), [Cell.num 250000]),
   (("calculatedfinishedsquarefeet"), [Cell.num 1500]),
   (("yearbuilt"), [Cell.num 2000]),
   (("unitcnt"), [Cell.num 1]),
   (("regionidcity"), [Cell.num 10]),
   (("regionidzip"), [Cell.num 90]),
   (("regionidneighborhood"), [Cell.num 7]),
   (("propertycountylandusecode"), [Cell.str ("0100")]),
   (("propertylandusetypeid"), [Cell.num 261]),
   (("airconditioningtypeid"), [Cell.num 1]),
   (("heatingorsystemtypeid"), [Cell.num 2]),
   (("fips"), [Cell.num 6037]),
   (("regionidcounty"), [Cell.num 3101]),
   (("propertyzoningdesc"), [Cell.str ("LAR1")])]

/-- The full transform output on `sampleTrain`. -/
def sampleFEOut : DataFrame := (feature_engineering sampleTrain).toOption.getD []

/-- The orchestrator output on `sampleTrain` used as both tables. -/
def sampleQuad : DataFrame × DataFrame × Col × Col :=
  (initiate_data_transformation sampleTrain sampleTrain).toOption.getD ([], [], [], [])

/-! ## Basic lemmas about the table operations. -/

theorem bind_ok_elim {α β : Type} {x : Except PyErr α} {f : α → Except PyErr β} {b : β}
    (h : (x >>= f) = Except.ok b) : ∃ a, x = Except.ok a ∧ f a = Except.ok b := by
  cases x with
  | ok a => exact ⟨a, rfl, by simpa [Bind.bind, Except.bind] using h⟩
  | error e => simp [Bind.bind, Except.bind] at h

theorem mapError_ok {α : Type} {g : PyErr → PyErr} {x : Except PyErr α} {b : α} :
    x.mapError g = Except.ok b ↔ x = Except.ok b := by
  cases x <;> simp [Except.mapError]

theorem getColE_ok {df : DataFrame} {m : String} {c : Col} :
    getColE df m = Except.ok c ↔ getCol df m = some c := by
  unfold getColE
  cases h : getCol df m <;> simp

theorem names_cons (p : String × Col) (df : DataFrame) :
    names (p :: df) = p.1 :: names df := rfl

theorem getCol_mem_names {df : DataFrame} {m : String} {c : Col}
    (h : getCol df m = some c) : m ∈ names df := by
  induction df with
  | nil => simp [getCol] at h
  | cons p df ih =>
    rw [getCol] at h
    rw [names_cons]
    by_cases hp : p.1 = m
    · simp [hp]
    · simp only [if_neg hp] at h
      simp [ih h]

theorem mem_names_getCol {df : DataFrame} {m : String}
    (h : m ∈ names df) : ∃ c, getCol df m = some c := by
  induction df with
  | nil => simp [names] at h
  | cons p df ih =>
    rw [names_cons] at h
    by_cases hp : p.1 = m
    · exact ⟨p.2, by simp [getCol, hp]⟩
    · have hm : m ∈ names df := by
        rcases List.mem_cons.mp h with h1 | h1
        · exact absurd h1.symm hp
        · exact h1
      obtain ⟨c, hc⟩ := ih hm
      exact ⟨c, by simp [getCol, hp, hc]⟩

theorem getCol_setCol_self (df : DataFrame) (n : String) (c : Col) :
    getCol (setCol df n c) n = some c := by
  induction df with
  | nil => simp [setCol, getCol]
  | cons p df ih =>
    rw [setCol]
    by_cases hp : p.1 = n
    · simp [hp, getCol]
    · simp [hp, getCol, ih]

theorem getCol_setCol_ne {m n : String} (df : DataFrame) (c : Col) (hmn : m ≠ n) :
    getCol (setCol df n c) m = getCol df m := by
  induction df with
  | nil => simp [setCol, getCol, Ne.symm hmn]
  | cons p df ih =>
    rw [setCol]
    by_cases hp : p.1 = n
    · rw [if_pos hp]
      have hpm : ¬ p.1 = m := fun hh => hmn (hp.symm.trans hh).symm
      rw [getCol, getCol, if_neg (Ne.symm hmn), if_neg hpm]
    · rw [if_neg hp, getCol, getCol]
      by_cases hq : p.1 = m
      · rw [if_pos hq, if_pos hq]
      · rw [if_neg hq, if_neg hq, ih]

theorem mem_names_setCol {m n : String} {df : DataFrame} {c : Col} :
    m ∈ names (setCol df n c) ↔ m ∈ names df ∨ m = n := by
  induction df with
  | nil => simp [setCol, names]
  | cons p df ih =>
    rw [setCol]
    by_cases hp : p.1 = n
    · rw [if_pos hp, names_cons, names_cons, hp]
      simp only [List.mem_cons]
      tauto
    · rw [if_neg hp, names_cons, names_cons]
      simp only [List.mem_cons, ih]
      tauto

theorem mem_names_eraseCols {m : String} {df : DataFrame} {ns : List String} :
    m ∈ names (eraseCols df ns) ↔ m ∈ names df ∧ m ∉ ns := by
  induction df with
  | nil => simp [eraseCols, names]
  | cons p df ih =>
    rw [eraseCols, List.filter_cons]
    by_cases hp : p.1 ∈ ns
    · rw [if_neg (by simpa using hp)]
      rw [names_cons]
      rw [eraseCols] at ih
      simp only [ih, List.mem_cons]
      constructor
      · tauto
      · rintro ⟨h1 | h1, h2⟩
        · exact absurd (h1 ▸ hp) h2
        · exact ⟨h1, h2⟩
    · rw [if_pos (by simpa using hp)]
      rw [names_cons, names_cons]
      rw [eraseCols] at ih
      simp only [List.mem_cons, ih]
      constructor
      · rintro (h1 | ⟨h1, h2⟩)
        · exact ⟨Or.inl h1, h1 ▸ hp⟩
        · exact ⟨Or.inr h1, h2⟩
      · rintro ⟨h1 | h1, h2⟩
        · exact Or.inl h1
        · exact Or.inr ⟨h1, h2⟩

theorem getCol_eraseCols {m : String} {df : DataFrame} {ns : List String}
    (hm : m ∉ ns) : getCol (eraseCols df ns) m = getCol df m := by
  induction df with
  | nil => simp [eraseCols, getCol]
  | cons p df ih =>
    rw [eraseCols, List.filter_cons]
    by_cases hp : p.1 ∈ ns
    · have hpm : ¬ p.1 = m := fun h => hm (h ▸ hp)
      rw [if_neg (by simpa using hp)]
      rw [eraseCols] at ih
      rw [getCol, if_neg hpm, ih]
    · rw [if_pos (by simpa using hp)]
      rw [eraseCols] at ih
      rw [getCol, getCol, ih]

theorem dropColsE_ok {df out : DataFrame} {ns : List String} :
    dropColsE df ns = Except.ok out ↔
      (∀ x ∈ ns, x ∈ names df) ∧ out = eraseCols df ns := by
  unfold dropColsE
  cases h : ns.find? (fun n => decide (n ∉ names df)) with
  | some n =>
    have h1 : n ∉ names df := by simpa using List.find?_some h
    have h2 : n ∈ ns := List.mem_of_find?_eq_some h
    constructor
    · intro hc; exact Except.noConfusion hc
    · rintro ⟨hall, _⟩; exact absurd (hall n h2) h1
  | none =>
    rw [List.find?_eq_none] at h
    simp only [Except.ok.injEq]
    constructor
    · intro he
      refine ⟨fun x hx => ?_, he.symm⟩
      have := h x hx
      simpa using this
    · rintro ⟨_, rfl⟩; rfl

theorem getDummies_ok {df out : DataFrame} {name : String} :
    getDummies df name = Except.ok out ↔
      ∃ c, getCol df name = some c ∧
        out = eraseCols df [name] ++ ((dummyCats c).drop 1).map
          (fun cat => (dummyName name cat, c.map (fun x => Cell.bool (x = cat)))) := by
  unfold getDummies
  cases h : getCol df name with
  | none => simp [getColE, h, Bind.bind, Except.bind]
  | some c =>
    simp only [getColE, h, Bind.bind, Except.bind, Except.ok.injEq, Option.some.injEq]
    constructor
    · intro he; exact ⟨c, rfl, he.symm⟩
    · rintro ⟨c', hc', rfl⟩; rw [hc']

/-! ## Well-formedness and length lemmas. -/

theorem WF_getCol_length {df : DataFrame} {n : Nat} {m : String} {c : Col}
    (hwf : WF df n) (h : getCol df m = some c) : c.length = n := by
  induction df with
  | nil => simp [getCol] at h
  | cons p df ih =>
    rw [getCol] at h
    by_cases hp : p.1 = m
    · rw [if_pos hp] at h
      rw [← Option.some.injEq] at h
      have := hwf p (List.mem_cons_self p df)
      simp at h
      rw [← h]
      exact this
    · rw [if_neg hp] at h
      exact ih (fun q hq => hwf q (List.mem_cons_of_mem p hq)) h

theorem WF_setCol {df : DataFrame} {n : Nat} {m : String} {c : Col}
    (hwf : WF df n) (hc : c.length = n) : WF (setCol df m c) n := by
  induction df with
  | nil => intro q hq; simp [setCol] at hq; rw [hq]; exact hc
  | cons p df ih =>
    rw [setCol]
    by_cases hp : p.1 = m
    · rw [if_pos hp]
      intro q hq
      rcases List.mem_cons.mp hq with h1 | h1
      · rw [h1]; exact hc
      · exact hwf q (List.mem_cons_of_mem p h1)
    · rw [if_neg hp]
      intro q hq
      rcases List.mem_cons.mp hq with h1 | h1
      · rw [h1]; exact hwf p (List.mem_cons_self p df)
      · exact ih (fun r hr => hwf r (List.mem_cons_of_mem p hr)) q h1

theorem WF_eraseCols {df : DataFrame} {n : Nat} {ns : List String}
    (hwf : WF df n) : WF (eraseCols df ns) n :=
  fun p hp => hwf p (List.mem_of_mem_filter hp)

theorem WF_append {df d2 : DataFrame} {n : Nat}
    (h1 : WF df n) (h2 : WF d2 n) : WF (df ++ d2) n := by
  intro p hp
  rcases List.mem_append.mp hp with h | h
  · exact h1 p h
  · exact h2 p h

theorem length_zipWith3 {α β γ δ : Type} (f : α → β → γ → δ)
    (a : List α) (b : List β) (c : List γ) :
    (zipWith3 f a b c).length = min a.length (min b.length c.length) := by
  induction a generalizing b c with
  | nil => simp [zipWith3]
  | cons x as ih =>
    cases b with
    | nil => simp [zipWith3]
    | cons y bs =>
      cases c with
      | nil => simp [zipWith3]
      | cons z cs =>
        simp only [zipWith3, List.length_cons, ih]
        omega

theorem length_npWhere (mask : List Bool) (a b : Col) :
    (npWhere mask a b).length = min mask.length (min a.length b.length) :=
  length_zipWith3 _ _ _ _

theorem length_maskNan (mask : List Bool) (c : Col) :
    (maskNan mask c).length = min mask.length c.length := by
  simp [maskNan]

theorem length_groupMedianImpute (key val : Col) :
    (groupMedianImpute key val).length = min key.length val.length := by
  simp [groupMedianImpute]

theorem length_fillna (c : Col) (q : ℚ) : (fillna c q).length = c.length := by
  simp [fillna]

theorem length_garageMask (area cnt : Col) :
    (garageMask area cnt).length = min area.length cnt.length := by
  simp [garageMask]

theorem getElem?_zipWith3 {α β γ δ : Type} {f : α → β → γ → δ}
    {xs : List α} {ys : List β} {zs : List γ} {i : Nat} {x : α} {y : β} {z : γ}
    (ha : xs[i]? = some x) (hb : ys[i]? = some y) (hc : zs[i]? = some z) :
    (zipWith3 f xs ys zs)[i]? = some (f x y z) := by
  induction xs generalizing ys zs i with
  | nil => simp at ha
  | cons w as ih =>
    cases ys with
    | nil => simp at hb
    | cons v bs =>
      cases zs with
      | nil => simp at hc
      | cons u cs =>
        cases i with
        | zero =>
          simp only [List.getElem?_cons_zero, Option.some.injEq] at ha hb hc
          simp [zipWith3, ha, hb, hc]
        | succ j =>
          simp only [List.getElem?_cons_succ] at ha hb hc
          simpa [zipWith3] using ih ha hb hc

theorem getElem?_zipWith_some {α β γ : Type} {f : α → β → γ}
    {xs : List α} {ys : List β} {i : Nat} {x : α} {y : β}
    (ha : xs[i]? = some x) (hb : ys[i]? = some y) :
    (List.zipWith f xs ys)[i]? = some (f x y) := by
  rw [List.getElem?_zipWith, ha, hb]

/-! ## Characterisations of the transform stages on success. -/

theorem fixRoomCount_ok {df out : DataFrame} (h : fixRoomCount df = Except.ok out) :
    ∃ room bed bath,
      getCol df ("roomcnt") = some room ∧
      getCol df ("bedroomcnt") = some bed ∧
      getCol df ("bathroomcnt") = some bath ∧
      out = eraseCols (setCol df ("roomcnt_fixed")
        (npWhere (room.map (fun x => cellGt x 0)) room
          ((List.zipWith addCell bed bath).map (fun x => addConst x 1)))) [("roomcnt")] := by
  unfold fixRoomCount at h
  obtain ⟨room, h1, h⟩ := bind_ok_elim h
  obtain ⟨bed, h2, h⟩ := bind_ok_elim h
  obtain ⟨bath, h3, h⟩ := bind_ok_elim h
  rw [dropColsE_ok] at h
  exact ⟨room, bed, bath, getColE_ok.mp h1, getColE_ok.mp h2, getColE_ok.mp h3, h.2⟩

theorem cleanGarage_ok {df out : DataFrame} (h : cleanGarage df = Except.ok out) :
    ∃ area cnt,
      getCol df ("garagetotalsqft") = some area ∧
      getCol df ("garagecarcnt") = some cnt ∧
      out = setCol (setCol df ("garagetotalsqft") (maskNan (garageMask area cnt) area))
        ("garagetotalsqft")
        (groupMedianImpute cnt (maskNan (garageMask area cnt) area)) := by
  unfold cleanGarage at h
  obtain ⟨area, h1, h⟩ := bind_ok_elim h
  obtain ⟨cnt, h2, h⟩ := bind_ok_elim h
  exact ⟨area, cnt, getColE_ok.mp h1, getColE_ok.mp h2, (Except.ok.inj h).symm⟩

theorem addDerived_ok {df out : DataFrame} (h : addDerived df = Except.ok out) :
    ∃ tax sqft yb bath bed roomf area,
      getCol df ("taxvaluedollarcnt") = some tax ∧
      getCol df ("calculatedfinishedsquarefeet") = some sqft ∧
      getCol df ("yearbuilt") = some yb ∧
      getCol df ("bathroomcnt") = some bath ∧
      getCol df ("bedroomcnt") = some bed ∧
      getCol df ("roomcnt_fixed") = some roomf ∧
      getCol df ("garagetotalsqft") = some area ∧
      out = setCol (setCol (setCol (setCol (setCol df
        ("price_per_sqft") (List.zipWith divCell tax (sqft.map (fun x => addConst x eps))))
        ("age_of_home") (yb.map (fun x => subConst 2025 x)))
        ("bath_per_bed") (List.zipWith divCell bath (bed.map (fun x => addConst x eps))))
        ("rooms_per_sqft") (List.zipWith divCell roomf (sqft.map (fun x => addConst x eps))))
        ("garage_sqft_ratio") (List.zipWith divCell area (sqft.map (fun x => addConst x eps))) := by
  unfold addDerived at h
  obtain ⟨tax, h1, h⟩ := bind_ok_elim h
  obtain ⟨sqft, h2, h⟩ := bind_ok_elim h
  obtain ⟨yb, h3, h⟩ := bind_ok_elim h
  obtain ⟨bath, h4, h⟩ := bind_ok_elim h
  obtain ⟨bed, h5, h⟩ := bind_ok_elim h
  obtain ⟨roomf, h6, h⟩ := bind_ok_elim h
  obtain ⟨sqft2, h7, h⟩ := bind_ok_elim h
  obtain ⟨area, h8, h⟩ := bind_ok_elim h
  obtain ⟨sqft3, h9, h⟩ := bind_ok_elim h
  rw [getColE_ok] at h1 h2 h3 h4 h5 h6 h7 h8 h9
  rw [getCol_setCol_ne _ _ (by decide)] at h3
  rw [getCol_setCol_ne _ _ (by decide), getCol_setCol_ne _ _ (by decide)] at h4
  rw [getCol_setCol_ne _ _ (by decide), getCol_setCol_ne _ _ (by decide)] at h5
  rw [getCol_setCol_ne _ _ (by decide), getCol_setCol_ne _ _ (by decide),
    getCol_setCol_ne _ _ (by decide)] at h6
  rw [getCol_setCol_ne _ _ (by decide), getCol_setCol_ne _ _ (by decide),
    getCol_setCol_ne _ _ (by decide)] at h7
  rw [getCol_setCol_ne _ _ (by decide), getCol_setCol_ne _ _ (by decide),
    getCol_setCol_ne _ _ (by decide), getCol_setCol_ne _ _ (by decide)] at h8
  rw [getCol_setCol_ne _ _ (by decide), getCol_setCol_ne _ _ (by decide),
    getCol_setCol_ne _ _ (by decide), getCol_setCol_ne _ _ (by decide)] at h9
  have hs2 : sqft2 = sqft := by
    rw [h2] at h7
    exact (Option.some.inj h7).symm
  have hs3 : sqft3 = sqft := by
    rw [h2] at h9
    exact (Option.some.inj h9).symm
  rw [hs2, hs3] at h
  exact ⟨tax, sqft, yb, bath, bed, roomf, area, h1, h2, h3, h4, h5, h6, h8,
    (Except.ok.inj h).symm⟩

theorem addFlags_ok {df out : DataFrame} (h : addFlags df = Except.ok out) :
    ∃ unit cnt area,
      getCol df ("unitcnt") = some unit ∧
      getCol df ("garagecarcnt") = some cnt ∧
      getCol df ("garagetotalsqft") = some area ∧
      out = setCol (setCol df ("multi_unit") (unit.map (fun x => boolToNum (cellGt x 1))))
        ("has_garage")
        (List.zipWith (fun a b => boolToNum (cellGt a 0 || cellGt b 0))
          (fillna cnt 0) (fillna area 0)) := by
  unfold addFlags at h
  obtain ⟨unit, h1, h⟩ := bind_ok_elim h
  obtain ⟨cnt, h2, h⟩ := bind_ok_elim h
  obtain ⟨area, h3, h⟩ := bind_ok_elim h
  rw [getColE_ok] at h1 h2 h3
  rw [getCol_setCol_ne _ _ (by decide)] at h2
  rw [getCol_setCol_ne _ _ (by decide)] at h3
  exact ⟨unit, cnt, area, h1, h2, h3, (Except.ok.inj h).symm⟩

theorem encodeTopKNum_ok {df out : DataFrame} {p : String × Nat}
    (h : encodeTopKNum df p = Except.ok out) :
    ∃ cl, getCol df p.1 = some cl ∧
      out = eraseCols (setCol df (p.1 ++ "_top")
          (cl.map (fun x => if x ∈ topK cl p.2 then x else Cell.num (-1)))) [p.1 ++ "_top"] ++
        ((dummyCats (cl.map (fun x => if x ∈ topK cl p.2 then x else Cell.num (-1)))).drop 1).map
          (fun cat => (dummyName (p.1 ++ "_top") cat,
            (cl.map (fun x => if x ∈ topK cl p.2 then x else Cell.num (-1))).map
              (fun x => Cell.bool (x = cat)))) := by
  unfold encodeTopKNum at h
  obtain ⟨cl, h1, h⟩ := bind_ok_elim h
  rw [getDummies_ok] at h
  obtain ⟨c2, hc2, hout⟩ := h
  rw [getCol_setCol_self] at hc2
  have : c2 = cl.map (fun x => if x ∈ topK cl p.2 then x else Cell.num (-1)) :=
    (Option.some.inj hc2).symm
  subst this
  exact ⟨cl, getColE_ok.mp h1, hout⟩

theorem encodeLanduseCode_ok {df out : DataFrame}
    (h : encodeLanduseCode df = Except.ok out) :
    ∃ cl, getCol df ("propertycountylandusecode") = some cl ∧
      out = eraseCols (setCol df ("propertycountylanduse_top") (topMapOther cl 15))
          [("propertycountylanduse_top")] ++
        ((dummyCats (topMapOther cl 15)).drop 1).map
          (fun cat => (dummyName ("propertycountylanduse_top") cat,
            (topMapOther cl 15).map (fun x => Cell.bool (x = cat)))) := by
  unfold encodeLanduseCode at h
  obtain ⟨cl, h1, h⟩ := bind_ok_elim h
  rw [getDummies_ok] at h
  obtain ⟨c2, hc2, hout⟩ := h
  rw [getCol_setCol_self] at hc2
  have : c2 = topMapOther cl 15 := (Option.some.inj hc2).symm
  subst this
  exact ⟨cl, getColE_ok.mp h1, hout⟩

theorem encodeLanduseType_ok {df out : DataFrame}
    (h : encodeLanduseType df = Except.ok out) :
    ∃ cl, getCol df ("propertylandusetypeid") = some cl ∧
      out = eraseCols (setCol df ("propertylandusetype_top") (topMapOther cl 5))
          [("propertylandusetype_top")] ++
        ((dummyCats (topMapOther cl 5)).drop 1).map
          (fun cat => (dummyName ("propertylandusetype_top") cat,
            (topMapOther cl 5).map (fun x => Cell.bool (x = cat)))) := by
  unfold encodeLanduseType at h
  obtain ⟨cl, h1, h⟩ := bind_ok_elim h
  rw [getDummies_ok] at h
  obtain ⟨c2, hc2, hout⟩ := h
  rw [getCol_setCol_self] at hc2
  have : c2 = topMapOther cl 5 := (Option.some.inj hc2).symm
  subst this
  exact ⟨cl, getColE_ok.mp h1, hout⟩

theorem encodeHighCard_ok {df out : DataFrame} (h : encodeHighCard df = Except.ok out) :
    ∃ d1 d2, encodeTopKNum df (("regionidcity"), 50) = Except.ok d1 ∧
      encodeTopKNum d1 (("regionidzip"), 50) = Except.ok d2 ∧
      encodeTopKNum d2 (("regionidneighborhood"), 50) = Except.ok out := by
  unfold encodeHighCard at h
  rw [List.foldlM_cons] at h
  obtain ⟨d1, h1, h⟩ := bind_ok_elim h
  rw [List.foldlM_cons] at h
  obtain ⟨d2, h2, h⟩ := bind_ok_elim h
  rw [List.foldlM_cons] at h
  obtain ⟨d3, h3, h⟩ := bind_ok_elim h
  rw [List.foldlM_nil] at h
  have : d3 = out := Except.ok.inj h
  subst this
  exact ⟨d1, d2, h1, h2, h3⟩

theorem encodeLowCard_ok {df out : DataFrame} (h : encodeLowCard df = Except.ok out) :
    ∃ d1 d2 d3,
      getDummies df ("airconditioningtypeid") = Except.ok d1 ∧
      getDummies d1 ("heatingorsystemtypeid") = Except.ok d2 ∧
      getDummies d2 ("fips") = Except.ok d3 ∧
      getDummies d3 ("regionidcounty") = Except.ok out := by
  unfold encodeLowCard lowCardCols at h
  rw [List.foldlM_cons] at h
  obtain ⟨d1, h1, h⟩ := bind_ok_elim h
  rw [List.foldlM_cons] at h
  obtain ⟨d2, h2, h⟩ := bind_ok_elim h
  rw [List.foldlM_cons] at h
  obtain ⟨d3, h3, h⟩ := bind_ok_elim h
  rw [List.foldlM_cons] at h
  obtain ⟨d4, h4, h⟩ := bind_ok_elim h
  rw [List.foldlM_nil] at h
  have : d4 = out := Except.ok.inj h
  subst this
  exact ⟨d1, d2, d3, h1, h2, h3, h4⟩

theorem rawFE_ok {df out : DataFrame} (h : rawFeatureEngineering df = Except.ok out) :
    ∃ d1 d2 d3 d4 d5 d6 d7 d8,
      fixRoomCount df = Except.ok d1 ∧ cleanGarage d1 = Except.ok d2 ∧
      addDerived d2 = Except.ok d3 ∧ addFlags d3 = Except.ok d4 ∧
      encodeHighCard d4 = Except.ok d5 ∧ encodeLanduseCode d5 = Except.ok d6 ∧
      encodeLanduseType d6 = Except.ok d7 ∧ encodeLowCard d7 = Except.ok d8 ∧
      out = dropZoning d8 := by
  unfold rawFeatureEngineering at h
  obtain ⟨d1, h1, h⟩ := bind_ok_elim h
  obtain ⟨d2, h2, h⟩ := bind_ok_elim h
  obtain ⟨d3, h3, h⟩ := bind_ok_elim h
  obtain ⟨d4, h4, h⟩ := bind_ok_elim h
  obtain ⟨d5, h5, h⟩ := bind_ok_elim h
  obtain ⟨d6, h6, h⟩ := bind_ok_elim h
  obtain ⟨d7, h7, h⟩ := bind_ok_elim h
  obtain ⟨d8, h8, h⟩ := bind_ok_elim h
  exact ⟨d1, d2, d3, d4, d5, d6, d7, d8, h1, h2, h3, h4, h5, h6, h7, h8,
    (Except.ok.inj h).symm⟩

/-! ## Row-count (well-formedness) preservation of each stage. -/

theorem WF_fixRoomCount {df out : DataFrame} {n : Nat}
    (hwf : WF df n) (h : fixRoomCount df = Except.ok out) : WF out n := by
  obtain ⟨room, bed, bath, h1, h2, h3, rfl⟩ := fixRoomCount_ok h
  apply WF_eraseCols
  apply WF_setCol hwf
  simp only [length_npWhere, List.length_map, List.length_zipWith,
    WF_getCol_length hwf h1, WF_getCol_length hwf h2, WF_getCol_length hwf h3]
  simp

theorem WF_cleanGarage {df out : DataFrame} {n : Nat}
    (hwf : WF df n) (h : cleanGarage df = Except.ok out) : WF out n := by
  obtain ⟨area, cnt, h1, h2, rfl⟩ := cleanGarage_ok h
  have hl1 : (maskNan (garageMask area cnt) area).length = n := by
    simp only [length_maskNan, length_garageMask, WF_getCol_length hwf h1,
      WF_getCol_length hwf h2]
    simp
  apply WF_setCol (WF_setCol hwf hl1)
  simp only [length_groupMedianImpute, WF_getCol_length hwf h2, hl1]
  simp

theorem WF_addDerived {df out : DataFrame} {n : Nat}
    (hwf : WF df n) (h : addDerived df = Except.ok out) : WF out n := by
  obtain ⟨tax, sqft, yb, bath, bed, roomf, area, h1, h2, h3, h4, h5, h6, h7, rfl⟩ :=
    addDerived_ok h
  have e1 := WF_getCol_length hwf h1
  have e2 := WF_getCol_length hwf h2
  have e3 := WF_getCol_length hwf h3
  have e4 := WF_getCol_length hwf h4
  have e5 := WF_getCol_length hwf h5
  have e6 := WF_getCol_length hwf h6
  have e7 := WF_getCol_length hwf h7
  apply WF_setCol
  apply WF_setCol
  apply WF_setCol
  apply WF_setCol
  apply WF_setCol hwf
  all_goals
    simp only [List.length_zipWith, List.length_map, e1, e2, e3, e4, e5, e6, e7]
  all_goals simp

theorem WF_addFlags {df out : DataFrame} {n : Nat}
    (hwf : WF df n) (h : addFlags df = Except.ok out) : WF out n := by
  obtain ⟨unit, cnt, area, h1, h2, h3, rfl⟩ := addFlags_ok h
  have e1 := WF_getCol_length hwf h1
  have e2 := WF_getCol_length hwf h2
  have e3 := WF_getCol_length hwf h3
  apply WF_setCol
  · apply WF_setCol hwf
    rw [List.length_map, e1]
  · simp only [List.length_zipWith, length_fillna, e2, e3]
    simp

theorem WF_getDummies {df out : DataFrame} {n : Nat} {m : String}
    (hwf : WF df n) (h : getDummies df m = Except.ok out) : WF out n := by
  obtain ⟨cl, h1, rfl⟩ := getDummies_ok.mp h
  apply WF_append (WF_eraseCols hwf)
  intro q hq
  simp only [List.mem_map] at hq
  obtain ⟨cat, _, rfl⟩ := hq
  simp [WF_getCol_length hwf h1]

theorem WF_encodeTopKNum {df out : DataFrame} {n : Nat} {pr : String × Nat}
    (hwf : WF df n) (h : encodeTopKNum df pr = Except.ok out) : WF out n := by
  obtain ⟨cl, h1, rfl⟩ := encodeTopKNum_ok h
  have hm : (cl.map (fun x => if x ∈ topK cl pr.2 then x else Cell.num (-1))).length = n := by
    rw [List.length_map, WF_getCol_length hwf h1]
  apply WF_append (WF_eraseCols (WF_setCol hwf hm))
  intro q hq
  simp only [List.mem_map] at hq
  obtain ⟨cat, _, rfl⟩ := hq
  simpa using hm

theorem WF_encodeHighCard {df out : DataFrame} {n : Nat}
    (hwf : WF df n) (h : encodeHighCard df = Except.ok out) : WF out n := by
  obtain ⟨d1, d2, h1, h2, h3⟩ := encodeHighCard_ok h
  exact WF_encodeTopKNum (WF_encodeTopKNum (WF_encodeTopKNum hwf h1) h2) h3

theorem WF_encodeLanduseCode {df out : DataFrame} {n : Nat}
    (hwf : WF df n) (h : encodeLanduseCode df = Except.ok out) : WF out n := by
  obtain ⟨cl, h1, rfl⟩ := encodeLanduseCode_ok h
  have hm : (topMapOther cl 15).length = n := by
    rw [topMapOther, List.length_map, WF_getCol_length hwf h1]
  apply WF_append (WF_eraseCols (WF_setCol hwf hm))
  intro q hq
  simp only [List.mem_map] at hq
  obtain ⟨cat, _, rfl⟩ := hq
  simpa using hm

theorem WF_encodeLanduseType {df out : DataFrame} {n : Nat}
    (hwf : WF df n) (h : encodeLanduseType df = Except.ok out) : WF out n := by
  obtain ⟨cl, h1, rfl⟩ := encodeLanduseType_ok h
  have hm : (topMapOther cl 5).length = n := by
    rw [topMapOther, List.length_map, WF_getCol_length hwf h1]
  apply WF_append (WF_eraseCols (WF_setCol hwf hm))
  intro q hq
  simp only [List.mem_map] at hq
  obtain ⟨cat, _, rfl⟩ := hq
  simpa using hm

theorem WF_encodeLowCard {df out : DataFrame} {n : Nat}
    (hwf : WF df n) (h : encodeLowCard df = Except.ok out) : WF out n := by
  obtain ⟨d1, d2, d3, h1, h2, h3, h4⟩ := encodeLowCard_ok h
  exact WF_getDummies (WF_getDummies (WF_getDummies (WF_getDummies hwf h1) h2) h3) h4

theorem WF_dropZoning {df : DataFrame} {n : Nat} (hwf : WF df n) :
    WF (dropZoning df) n := by
  unfold dropZoning
  split
  · exact WF_eraseCols hwf
  · exact hwf

theorem WF_rawFE {df out : DataFrame} {n : Nat}
    (hwf : WF df n) (h : rawFeatureEngineering df = Except.ok out) : WF out n := by
  obtain ⟨d1, d2, d3, d4, d5, d6, d7, d8, h1, h2, h3, h4, h5, h6, h7, h8, rfl⟩ := rawFE_ok h
  exact WF_dropZoning (WF_encodeLowCard (WF_encodeLanduseType (WF_encodeLanduseCode
    (WF_encodeHighCard (WF_addFlags (WF_addDerived (WF_cleanGarage
      (WF_fixRoomCount hwf h1) h2) h3) h4) h5) h6) h7) h8)

/-! ## Survival of column labels through the stages. -/

theorem names_append (df d2 : DataFrame) : names (df ++ d2) = names df ++ names d2 :=
  List.map_append _ _ _

theorem names_fixRoomCount {df out : DataFrame} {m : String}
    (h : fixRoomCount df = Except.ok out) (hm : m ∈ names df)
    (hne : m ≠ ("roomcnt")) : m ∈ names out := by
  obtain ⟨room, bed, bath, _, _, _, rfl⟩ := fixRoomCount_ok h
  rw [mem_names_eraseCols]
  exact ⟨mem_names_setCol.mpr (Or.inl hm), by simpa using hne⟩

theorem names_cleanGarage {df out : DataFrame} {m : String}
    (h : cleanGarage df = Except.ok out) (hm : m ∈ names df) : m ∈ names out := by
  obtain ⟨area, cnt, _, _, rfl⟩ := cleanGarage_ok h
  exact mem_names_setCol.mpr (Or.inl (mem_names_setCol.mpr (Or.inl hm)))

theorem names_addDerived {df out : DataFrame} {m : String}
    (h : addDerived df = Except.ok out) (hm : m ∈ names df) : m ∈ names out := by
  obtain ⟨tax, sqft, yb, bath, bed, roomf, area, _, _, _, _, _, _, _, rfl⟩ := addDerived_ok h
  exact mem_names_setCol.mpr (Or.inl (mem_names_setCol.mpr (Or.inl
    (mem_names_setCol.mpr (Or.inl (mem_names_setCol.mpr (Or.inl
      (mem_names_setCol.mpr (Or.inl hm)))))))))

theorem names_addFlags {df out : DataFrame} {m : String}
    (h : addFlags df = Except.ok out) (hm : m ∈ names df) : m ∈ names out := by
  obtain ⟨unit, cnt, area, _, _, _, rfl⟩ := addFlags_ok h
  exact mem_names_setCol.mpr (Or.inl (mem_names_setCol.mpr (Or.inl hm)))

theorem names_getDummies {df out : DataFrame} {m k : String}
    (h : getDummies df k = Except.ok out) (hm : m ∈ names df)
    (hne : m ≠ k) : m ∈ names out := by
  obtain ⟨cl, _, rfl⟩ := getDummies_ok.mp h
  rw [names_append, List.mem_append]
  exact Or.inl (mem_names_eraseCols.mpr ⟨hm, by simpa using hne⟩)

theorem names_encodeTopKNum {df out : DataFrame} {m : String} {pr : String × Nat}
    (h : encodeTopKNum df pr = Except.ok out) (hm : m ∈ names df)
    (hne : m ≠ pr.1 ++ "_top") : m ∈ names out := by
  obtain ⟨cl, _, rfl⟩ := encodeTopKNum_ok h
  rw [names_append, List.mem_append]
  exact Or.inl (mem_names_eraseCols.mpr
    ⟨mem_names_setCol.mpr (Or.inl hm), by simpa using hne⟩)

theorem names_encodeHighCard {df out : DataFrame} {m : String}
    (h : encodeHighCard df = Except.ok out) (hm : m ∈ names df)
    (h1 : m ≠ ("regionidcity_top")) (h2 : m ≠ ("regionidzip_top"))
    (h3 : m ≠ ("regionidneighborhood_top")) : m ∈ names out := by
  obtain ⟨d1, d2, e1, e2, e3⟩ := encodeHighCard_ok h
  exact names_encodeTopKNum e3 (names_encodeTopKNum e2
    (names_encodeTopKNum e1 hm h1) h2) h3

theorem names_encodeLanduseCode {df out : DataFrame} {m : String}
    (h : encodeLanduseCode df = Except.ok out) (hm : m ∈ names df)
    (hne : m ≠ ("propertycountylanduse_top")) : m ∈ names out := by
  obtain ⟨cl, _, rfl⟩ := encodeLanduseCode_ok h
  rw [names_append, List.mem_append]
  exact Or.inl (mem_names_eraseCols.mpr
    ⟨mem_names_setCol.mpr (Or.inl hm), by simpa using hne⟩)

theorem names_encodeLanduseType {df out : DataFrame} {m : String}
    (h : encodeLanduseType df = Except.ok out) (hm : m ∈ names df)
    (hne : m ≠ ("propertylandusetype_top")) : m ∈ names out := by
  obtain ⟨cl, _, rfl⟩ := encodeLanduseType_ok h
  rw [names_append, List.mem_append]
  exact Or.inl (mem_names_eraseCols.mpr
    ⟨mem_names_setCol.mpr (Or.inl hm), by simpa using hne⟩)

theorem names_encodeLowCard {df out : DataFrame} {m : String}
    (h : encodeLowCard df = Except.ok out) (hm : m ∈ names df)
    (h1 : m ≠ ("airconditioningtypeid")) (h2 : m ≠ ("heatingorsystemtypeid"))
    (h3 : m ≠ ("fips")) (h4 : m ≠ ("regionidcounty")) : m ∈ names out := by
  obtain ⟨d1, d2, d3, e1, e2, e3, e4⟩ := encodeLowCard_ok h
  exact names_getDummies e4 (names_getDummies e3 (names_getDummies e2
    (names_getDummies e1 hm h1) h2) h3) h4

theorem names_dropZoning {df : DataFrame} {m : String}
    (hm : m ∈ names df) (hne : m ≠ ("propertyzoningdesc")) :
    m ∈ names (dropZoning df) := by
  unfold dropZoning
  split
  · exact mem_names_eraseCols.mpr ⟨hm, by simpa using hne⟩
  · exact hm

theorem nrows_of_WF {df : DataFrame} {n : Nat} (hwf : WF df n)
    (hne : names df ≠ []) : nrows df = n := by
  cases df with
  | nil => exact absurd rfl hne
  | cons p d => exact hwf p (List.mem_cons_self p d)

theorem getCol_eq_none {df : DataFrame} {m : String} (h : m ∉ names df) :
    getCol df m = none := by
  cases hg : getCol df m with
  | none => rfl
  | some cl => exact absurd (getCol_mem_names hg) h

theorem getElem?_exists_of_lt {α : Type} {l : List α} {i : Nat}
    (h : i < l.length) : ∃ x, l[i]? = some x := by
  rw [List.getElem?_eq_getElem h]
  exact ⟨l[i], rfl⟩

theorem lt_length_of_getElem? {α : Type} {l : List α} {i : Nat} {x : α}
    (h : l[i]? = some x) : i < l.length := by
  by_contra hc
  rw [List.getElem?_eq_none (by omega)] at h
  exact Option.noConfusion h

/-! ## The claims. -/

/-- C8: any exception raised inside the transform body (or the
orchestration body) propagates to the caller wrapped exactly once more in
the single wrapper type `CustomException` carrying the original cause;
nothing is caught and retried, and a failing run returns an error, never a
partial table. -/
theorem C8_error_wrapping :
    (∀ df : DataFrame,
      (∃ out, rawFeatureEngineering df = Except.ok out ∧
        feature_engineering df = Except.ok out) ∨
      (∃ e, rawFeatureEngineering df = Except.error e ∧
        feature_engineering df = Except.error (PyErr.custom e))) ∧
    (∀ train test : DataFrame,
      (∃ r, rawInitiate train test = Except.ok r ∧
        initiate_data_transformation train test = Except.ok r) ∨
      (∃ e, rawInitiate train test = Except.error e ∧
        initiate_data_transformation train test = Except.error (PyErr.custom e))) := by
  constructor
  · intro df
    cases h : rawFeatureEngineering df with
    | ok out =>
      exact Or.inl ⟨out, rfl, by simp [feature_engineering, h, Except.mapError]⟩
    | error e =>
      exact Or.inr ⟨e, rfl, by simp [feature_engineering, h, Except.mapError]⟩
  · intro train test
    cases h : rawInitiate train test with
    | ok r =>
      exact Or.inl ⟨r, rfl, by simp [initiate_data_transformation, h, Except.mapError]⟩
    | error e =>
      exact Or.inr ⟨e, rfl, by simp [initiate_data_transformation, h, Except.mapError]⟩

/-- C5: in the room-count repair step, the repaired count equals `roomcnt`
whenever `roomcnt > 0` and `bedroomcnt + bathroomcnt + 1` otherwise, and
the original room-count column is removed from the stage output. -/
theorem C5_room_count_repair {df out : DataFrame} {room bed bath : Col} {n : Nat}
    (hwf : WF df n)
    (hr : getCol df ("roomcnt") = some room)
    (hb : getCol df ("bedroomcnt") = some bed)
    (hba : getCol df ("bathroomcnt") = some bath)
    (hok : fixRoomCount df = Except.ok out) :
    getCol out ("roomcnt") = none ∧
    ∃ fixed : Col, getCol out ("roomcnt_fixed") = some fixed ∧
      ∀ (i : Nat) (r : ℚ), room[i]? = some (Cell.num r) →
        (0 < r → fixed[i]? = some (Cell.num r)) ∧
        (¬ 0 < r → ∀ (b bb : ℚ), bed[i]? = some (Cell.num b) → bath[i]? = some (Cell.num bb) →
          fixed[i]? = some (Cell.num (b + bb + 1))) := by
  obtain ⟨room2, bed2, bath2, hr2, hb2, hba2, rfl⟩ := fixRoomCount_ok hok
  rw [hr] at hr2
  rw [hb] at hb2
  rw [hba] at hba2
  obtain rfl : room = room2 := Option.some.inj hr2
  obtain rfl : bed = bed2 := Option.some.inj hb2
  obtain rfl : bath = bath2 := Option.some.inj hba2
  constructor
  · exact getCol_eq_none (fun hmem => (mem_names_eraseCols.mp hmem).2 (by decide))
  refine ⟨_, by rw [getCol_eraseCols (by decide), getCol_setCol_self], ?_⟩
  intro i r hri
  have hi : i < room.length := lt_length_of_getElem? hri
  have hlr := WF_getCol_length hwf hr
  have hlb := WF_getCol_length hwf hb
  have hlba := WF_getCol_length hwf hba
  obtain ⟨bcell, hbcell⟩ := getElem?_exists_of_lt (l := bed) (i := i) (by omega)
  obtain ⟨bacell, hbacell⟩ := getElem?_exists_of_lt (l := bath) (i := i) (by omega)
  have hthird : ((List.zipWith addCell bed bath).map (fun x => addConst x 1))[i]? =
      some (addConst (addCell bcell bacell) 1) := by
    rw [List.getElem?_map, getElem?_zipWith_some hbcell hbacell]
    rfl
  have hmask : (room.map (fun x => cellGt x 0))[i]? = some (cellGt (Cell.num r) 0) := by
    rw [List.getElem?_map, hri]
    rfl
  constructor
  · intro hrpos
    have := getElem?_zipWith3 (f := fun m x y => if m then x else y) hmask hri hthird
    rw [npWhere, this]
    simp [cellGt, hrpos]
  · intro hrneg
    intro b bb hbi hbai
    rw [hbi] at hbcell
    rw [hbai] at hbacell
    obtain rfl : Cell.num b = bcell := Option.some.inj hbcell
    obtain rfl : Cell.num bb = bacell := Option.some.inj hbacell
    have := getElem?_zipWith3 (f := fun m x y => if m then x else y) hmask hri hthird
    rw [npWhere, this]
    simp [cellGt, hrneg, addCell, addConst, add_assoc]

/-- Witness for C5 on the concrete table `roomDf`: the row with
`roomcnt = 0, bedroomcnt = 2, bathroomcnt = 1` is repaired to 4 and the
row with `roomcnt = 5` keeps 5; `roomcnt` is gone from the output. -/
theorem C5_witness :
    fixRoomCount roomDf = Except.ok roomOut ∧
    getCol roomOut ("roomcnt") = none ∧
    getCol roomOut ("roomcnt_fixed") = some roomFixedCol ∧
    roomFixedCol[0]? = some (Cell.num 4) ∧
    roomFixedCol[1]? = some (Cell.num 5) := by
  have hok : fixRoomCount roomDf = Except.ok roomOut := rfl
  obtain ⟨hnone, fixed, hfix, hrow⟩ :=
    @C5_room_count_repair roomDf roomOut [Cell.num 0, Cell.num 5]
      [Cell.num 2, Cell.num 3] [Cell.num 1, Cell.num 2]
      2 (by decide) rfl rfl rfl hok
  have hfc : roomFixedCol = fixed := by
    unfold roomFixedCol
    rw [hfix]
    rfl
  have h0 := (hrow 0 0 rfl).2 (by norm_num) 2 1 rfl rfl
  have h1 := (hrow 1 5 rfl).1 (by norm_num)
  refine ⟨hok, hnone, by rw [hfc]; exact hfix, ?_, ?_⟩
  · rw [hfc, h0]
    norm_num
  · rw [hfc, h1]

theorem cellGt_fillzero_zero (x : Cell) :
    cellGt (if x = Cell.nan then Cell.num 0 else x) 0 = decide (0 < asNumOrZero x) := by
  cases x <;> rfl

theorem cellGt_one_eq (x : Cell) : cellGt x 1 = decide (1 < asNumOrZero x) := by
  cases x <;> rfl

theorem boolToNum_decide (p : Prop) [Decidable p] :
    boolToNum (decide p) = Cell.num (if p then 1 else 0) := by
  by_cases hp : p <;> simp [boolToNum, hp]

theorem boolToNum_or (p q : Prop) [Decidable p] [Decidable q] :
    boolToNum (decide p || decide q) = Cell.num (if p ∨ q then 1 else 0) := by
  by_cases hp : p <;> by_cases hq : q <;> simp [boolToNum, hp, hq]

/-- C6: `multi_unit` is 1 exactly when the unit count exceeds 1 (a missing
or non-numeric count reads as 0), and `has_garage` is 1 exactly when the
car count treated as 0 when missing, or the garage area treated as 0 when
missing, is positive. -/
theorem C6_binary_flags {df out : DataFrame} {unit cnt area : Col}
    (hu : getCol df ("unitcnt") = some unit)
    (hc : getCol df ("garagecarcnt") = some cnt)
    (ha : getCol df ("garagetotalsqft") = some area)
    (hok : addFlags df = Except.ok out) :
    ∃ mcol hcol : Col,
      getCol out ("multi_unit") = some mcol ∧
      getCol out ("has_garage") = some hcol ∧
      (∀ (i : Nat) (u : Cell), unit[i]? = some u →
        mcol[i]? = some (Cell.num (if 1 < asNumOrZero u then 1 else 0))) ∧
      (∀ (i : Nat) (a b : Cell), cnt[i]? = some a → area[i]? = some b →
        hcol[i]? = some (Cell.num (if 0 < asNumOrZero a ∨ 0 < asNumOrZero b then 1 else 0))) := by
  obtain ⟨unit2, cnt2, area2, hu2, hc2, ha2, rfl⟩ := addFlags_ok hok
  rw [hu] at hu2
  rw [hc] at hc2
  rw [ha] at ha2
  obtain rfl : unit = unit2 := Option.some.inj hu2
  obtain rfl : cnt = cnt2 := Option.some.inj hc2
  obtain rfl : area = area2 := Option.some.inj ha2
  refine ⟨unit.map (fun x => boolToNum (cellGt x 1)),
    List.zipWith (fun a b => boolToNum (cellGt a 0 || cellGt b 0))
      (fillna cnt 0) (fillna area 0),
    ?_, getCol_setCol_self _ _ _, ?_, ?_⟩
  · rw [getCol_setCol_ne _ _ (by decide), getCol_setCol_self]
  · intro i u hui
    rw [List.getElem?_map, hui, Option.map_some']
    rw [cellGt_one_eq, boolToNum_decide]
  · intro i a b hai hbi
    have hfa : (fillna cnt 0)[i]? = some (if a = Cell.nan then Cell.num 0 else a) := by
      rw [fillna, List.getElem?_map, hai, Option.map_some']
    have hfb : (fillna area 0)[i]? = some (if b = Cell.nan then Cell.num 0 else b) := by
      rw [fillna, List.getElem?_map, hbi, Option.map_some']
    rw [getElem?_zipWith_some hfa hfb, cellGt_fillzero_zero, cellGt_fillzero_zero,
      boolToNum_or]

/-- Witness for C6 on `flagsDf`: a row with missing car count and zero
area gets `has_garage = 0`, a row with zero car count and area 300 gets
`has_garage = 1`; `multi_unit` is 1 for `unitcnt = 2` and 0 for
`unitcnt = 1`. -/
theorem C6_witness :
    addFlags flagsDf = Except.ok flagsOut ∧
    getCol flagsOut ("multi_unit") = some multiUnitCol ∧
    getCol flagsOut ("has_garage") = some hasGarageCol ∧
    multiUnitCol[0]? = some (Cell.num 1) ∧
    multiUnitCol[1]? = some (Cell.num 0) ∧
    hasGarageCol[0]? = some (Cell.num 0) ∧
    hasGarageCol[1]? = some (Cell.num 1) := by
  have hok : addFlags flagsDf = Except.ok flagsOut := rfl
  obtain ⟨mcol, hcol, hm, hh, hmrow, hhrow⟩ :=
    @C6_binary_flags flagsDf flagsOut
      [Cell.num 2, Cell.num 1, Cell.nan]
      [Cell.nan, Cell.num 0, Cell.num 0]
      [Cell.num 0, Cell.num 300, Cell.num 0] rfl rfl rfl hok
  have hmc : multiUnitCol = mcol := by
    unfold multiUnitCol
    rw [hm]
    rfl
  have hhc : hasGarageCol = hcol := by
    unfold hasGarageCol
    rw [hh]
    rfl
  refine ⟨hok, by rw [hmc]; exact hm, by rw [hhc]; exact hh, ?_, ?_, ?_, ?_⟩
  · rw [hmc, hmrow 0 (Cell.num 2) rfl]
    norm_num [asNumOrZero]
  · rw [hmc, hmrow 1 (Cell.num 1) rfl]
    norm_num [asNumOrZero]
  · rw [hhc, hhrow 0 Cell.nan (Cell.num 0) rfl rfl]
    norm_num [asNumOrZero]
  · rw [hhc, hhrow 1 (Cell.num 0) (Cell.num 300) rfl rfl]
    norm_num [asNumOrZero]

/-- C10: a row whose `unitcnt` is missing gets `multi_unit = 0`, because
the comparison `unitcnt > 1` is false on NaN. -/
theorem C10_missing_unit {df out : DataFrame} {unit : Col}
    (hu : getCol df ("unitcnt") = some unit)
    (hok : addFlags df = Except.ok out) :
    ∃ mcol : Col, getCol out ("multi_unit") = some mcol ∧
      ∀ i : Nat, unit[i]? = some Cell.nan → mcol[i]? = some (Cell.num 0) := by
  obtain ⟨unit2, cnt2, area2, hu2, hc2, ha2, rfl⟩ := addFlags_ok hok
  rw [hu] at hu2
  obtain rfl : unit = unit2 := Option.some.inj hu2
  refine ⟨unit.map (fun x => boolToNum (cellGt x 1)), ?_, ?_⟩
  · rw [getCol_setCol_ne _ _ (by decide), getCol_setCol_self]
  · intro i hui
    rw [List.getElem?_map, hui, Option.map_some']
    rfl

/-- Witness for C10 on `flagsDf`: the third row has `unitcnt = NaN` and
comes out with `multi_unit = 0`. -/
theorem C10_witness :
    addFlags flagsDf = Except.ok flagsOut ∧
    getCol flagsOut ("multi_unit") = some multiUnitCol ∧
    multiUnitCol[2]? = some (Cell.num 0) := by
  have hok : addFlags flagsDf = Except.ok flagsOut := rfl
  obtain ⟨mcol, hm, hrow⟩ :=
    @C10_missing_unit flagsDf flagsOut
      [Cell.num 2, Cell.num 1, Cell.nan] rfl hok
  have hmc : multiUnitCol = mcol := by
    unfold multiUnitCol
    rw [hm]
    rfl
  exact ⟨hok, by rw [hmc]; exact hm, by rw [hmc]; exact hrow 2 rfl⟩

/-- C4: the five derived features satisfy their defining formulas row by
row, every denominator being offset by `eps = 1e-5`; in particular a row
with `calculatedfinishedsquarefeet = 0` divides by exactly `eps` and gets
the finite value `taxvalue * 100000`. -/
theorem C4_derived_features {df out : DataFrame} {tax sqft yb bath bed roomf area : Col}
    (h1 : getCol df ("taxvaluedollarcnt") = some tax)
    (h2 : getCol df ("calculatedfinishedsquarefeet") = some sqft)
    (h3 : getCol df ("yearbuilt") = some yb)
    (h4 : getCol df ("bathroomcnt") = some bath)
    (h5 : getCol df ("bedroomcnt") = some bed)
    (h6 : getCol df ("roomcnt_fixed") = some roomf)
    (h7 : getCol df ("garagetotalsqft") = some area)
    (hok : addDerived df = Except.ok out) :
    ∃ pcol agecol bbcol rscol grcol : Col,
      getCol out ("price_per_sqft") = some pcol ∧
      getCol out ("age_of_home") = some agecol ∧
      getCol out ("bath_per_bed") = some bbcol ∧
      getCol out ("rooms_per_sqft") = some rscol ∧
      getCol out ("garage_sqft_ratio") = some grcol ∧
      (∀ (i : Nat) (t s : ℚ), tax[i]? = some (Cell.num t) → sqft[i]? = some (Cell.num s) →
        pcol[i]? = some (Cell.num (t / (s + eps)))) ∧
      (∀ (i : Nat) (y : ℚ), yb[i]? = some (Cell.num y) →
        agecol[i]? = some (Cell.num (2025 - y))) ∧
      (∀ (i : Nat) (b bd : ℚ), bath[i]? = some (Cell.num b) → bed[i]? = some (Cell.num bd) →
        bbcol[i]? = some (Cell.num (b / (bd + eps)))) ∧
      (∀ (i : Nat) (r s : ℚ), roomf[i]? = some (Cell.num r) → sqft[i]? = some (Cell.num s) →
        rscol[i]? = some (Cell.num (r / (s + eps)))) ∧
      (∀ (i : Nat) (g s : ℚ), area[i]? = some (Cell.num g) → sqft[i]? = some (Cell.num s) →
        grcol[i]? = some (Cell.num (g / (s + eps)))) ∧
      (∀ (i : Nat) (t : ℚ), tax[i]? = some (Cell.num t) → sqft[i]? = some (Cell.num 0) →
        pcol[i]? = some (Cell.num (t * 100000))) := by
  obtain ⟨tax2, sqft2, yb2, bath2, bed2, roomf2, area2, g1, g2, g3, g4, g5, g6, g7, rfl⟩ :=
    addDerived_ok hok
  rw [h1] at g1
  rw [h2] at g2
  rw [h3] at g3
  rw [h4] at g4
  rw [h5] at g5
  rw [h6] at g6
  rw [h7] at g7
  obtain rfl : tax = tax2 := Option.some.inj g1
  obtain rfl : sqft = sqft2 := Option.some.inj g2
  obtain rfl : yb = yb2 := Option.some.inj g3
  obtain rfl : bath = bath2 := Option.some.inj g4
  obtain rfl : bed = bed2 := Option.some.inj g5
  obtain rfl : roomf = roomf2 := Option.some.inj g6
  obtain rfl : area = area2 := Option.some.inj g7
  have hgp : ∀ (col : Col) (i : Nat) (a s : ℚ),
      col[i]? = some (Cell.num a) → sqft[i]? = some (Cell.num s) →
      (List.zipWith divCell col (sqft.map (fun x => addConst x eps)))[i]? =
        some (Cell.num (a / (s + eps))) := by
    intro col i a s hai hsi
    have hden : (sqft.map (fun x => addConst x eps))[i]? = some (Cell.num (s + eps)) := by
      rw [List.getElem?_map, hsi, Option.map_some']
      rfl
    rw [getElem?_zipWith_some hai hden]
    rfl
  refine ⟨List.zipWith divCell tax (sqft.map (fun x => addConst x eps)),
    yb.map (fun x => subConst 2025 x),
    List.zipWith divCell bath (bed.map (fun x => addConst x eps)),
    List.zipWith divCell roomf (sqft.map (fun x => addConst x eps)),
    List.zipWith divCell area (sqft.map (fun x => addConst x eps)),
    ?_, ?_, ?_, ?_, getCol_setCol_self _ _ _, ?_, ?_, ?_, ?_, ?_, ?_⟩
  · rw [getCol_setCol_ne _ _ (by decide), getCol_setCol_ne _ _ (by decide),
      getCol_setCol_ne _ _ (by decide), getCol_setCol_ne _ _ (by decide),
      getCol_setCol_self]
  · rw [getCol_setCol_ne _ _ (by decide), getCol_setCol_ne _ _ (by decide),
      getCol_setCol_ne _ _ (by decide), getCol_setCol_self]
  · rw [getCol_setCol_ne _ _ (by decide), getCol_setCol_ne _ _ (by decide),
      getCol_setCol_self]
  · rw [getCol_setCol_ne _ _ (by decide), getCol_setCol_self]
  · intro i t s hti hsi
    exact hgp tax i t s hti hsi
  · intro i y hyi
    rw [List.getElem?_map, hyi, Option.map_some']
    rfl
  · intro i b bd hbi hbdi
    have hden : (bed.map (fun x => addConst x eps))[i]? = some (Cell.num (bd + eps)) := by
      rw [List.getElem?_map, hbdi, Option.map_some']
      rfl
    rw [getElem?_zipWith_some hbi hden]
    rfl
  · intro i r s hri hsi
    exact hgp roomf i r s hri hsi
  · intro i g s hgi hsi
    exact hgp area i g s hgi hsi
  · intro i t hti hsi
    have := hgp tax i t 0 hti hsi
    rw [this]
    have heq : (0 : ℚ) + eps = 1 / 100000 := by norm_num [eps]
    rw [heq, div_eq_mul_inv, one_div, inv_inv]

/-- Witness for C4 on `derivedDf`, whose single row has
`calculatedfinishedsquarefeet = 0`: no division error occurs and
`price_per_sqft` comes out as the finite value `100000 * 100000`. -/
theorem C4_witness :
    addDerived derivedDf = Except.ok derivedOut ∧
    (∃ pcol : Col, getCol derivedOut ("price_per_sqft") = some pcol ∧
      pcol[0]? = some (Cell.num 10000000000)) ∧
    (∃ agecol : Col, getCol derivedOut ("age_of_home") = some agecol ∧
      agecol[0]? = some (Cell.num 25)) ∧
    (∃ bbcol : Col, getCol derivedOut ("bath_per_bed") = some bbcol ∧
      bbcol[0]? = some (Cell.num (3 / (2 + eps)))) := by
  have hok : addDerived derivedDf = Except.ok derivedOut := rfl
  obtain ⟨pcol, agecol, bbcol, rscol, grcol, hp, hage, hbb, hrs, hgr,
      hprow, hagerow, hbbrow, hrsrow, hgrrow, hepsrow⟩ :=
    @C4_derived_features derivedDf derivedOut
      [Cell.num 100000] [Cell.num 0] [Cell.num 2000]
      [Cell.num 3] [Cell.num 2] [Cell.num 5]
      [Cell.num 400] rfl rfl rfl rfl rfl rfl rfl hok
  refine ⟨hok, ⟨pcol, hp, ?_⟩, ⟨agecol, hage, ?_⟩, ⟨bbcol, hbb, hbbrow 0 3 2 rfl rfl⟩⟩
  · rw [hepsrow 0 100000 rfl rfl]
    norm_num
  · rw [hagerow 0 2000 rfl]
    norm_num

/-- C2: in the garage-area cleanup step, a row with `garagetotalsqft = 0`
and `garagecarcnt = k > 0` is first marked missing and then filled with
the median of the non-missing (post-masking) garage areas of the rows
sharing car count `k`; when that group has no valid values the cell stays
missing. -/
theorem C2_garage_imputation {df out : DataFrame} {area cnt : Col}
    (ha : getCol df ("garagetotalsqft") = some area)
    (hc : getCol df ("garagecarcnt") = some cnt)
    (hok : cleanGarage df = Except.ok out) :
    ∃ outArea : Col, getCol out ("garagetotalsqft") = some outArea ∧
      outArea = groupMedianImpute cnt (maskNan (garageMask area cnt) area) ∧
      ∀ (i : Nat) (k : ℚ), area[i]? = some (Cell.num 0) → cnt[i]? = some (Cell.num k) →
        0 < k →
        outArea[i]? = some
          (match median (groupVals cnt (maskNan (garageMask area cnt) area) k) with
            | some m => Cell.num m
            | none => Cell.nan) := by
  obtain ⟨area2, cnt2, ha2, hc2, rfl⟩ := cleanGarage_ok hok
  rw [ha] at ha2
  rw [hc] at hc2
  obtain rfl : area = area2 := Option.some.inj ha2
  obtain rfl : cnt = cnt2 := Option.some.inj hc2
  refine ⟨_, getCol_setCol_self _ _ _, rfl, ?_⟩
  intro i k hai hci hk
  have hmask : (garageMask area cnt)[i]? = some true := by
    rw [garageMask, getElem?_zipWith_some hai hci]
    simp [cellEq, cellGt, hk]
  have hmn : (maskNan (garageMask area cnt) area)[i]? = some Cell.nan := by
    rw [maskNan, getElem?_zipWith_some hmask hai]
    rfl
  rw [groupMedianImpute, getElem?_zipWith_some hci hmn]

/-- Witness for C2 on `garageDf`: the group `garagecarcnt = 2` holds the
areas `{0 (sentinel), 400, 600}` and the sentinel row is imputed to the
median 500 of the two valid values. -/
theorem C2_witness :
    cleanGarage garageDf = Except.ok garageOut ∧
    getCol garageOut ("garagetotalsqft") = some garageAreaCol ∧
    (0 : ℚ) < 2 ∧
    garageAreaCol[0]? = some (Cell.num 500) ∧
    garageAreaCol[1]? = some (Cell.num 400) ∧
    garageAreaCol[2]? = some (Cell.num 600) := by
  have hok : cleanGarage garageDf = Except.ok garageOut := rfl
  obtain ⟨outArea, hcol, hdef, hrow⟩ :=
    @C2_garage_imputation garageDf garageOut
      [Cell.num 0, Cell.num 400, Cell.num 600]
      [Cell.num 2, Cell.num 2, Cell.num 2] rfl rfl hok
  have hac : garageAreaCol = outArea := by
    unfold garageAreaCol
    rw [hcol]
    rfl
  have h0 := hrow 0 2 rfl rfl (by norm_num)
  have hmed : median (groupVals [Cell.num 2, Cell.num 2, Cell.num 2]
      (maskNan (garageMask [Cell.num 0, Cell.num 400, Cell.num 600]
        [Cell.num 2, Cell.num 2, Cell.num 2])
        [Cell.num 0, Cell.num 400, Cell.num 600]) 2) = some ((400 + 600) / 2) := rfl
  rw [hmed] at h0
  refine ⟨hok, by rw [hac]; exact hcol, by norm_num, ?_, ?_, ?_⟩
  · rw [hac, h0]
    norm_num
  · rw [hac, hdef]
    rfl
  · rw [hac, hdef]
    rfl

theorem price_mem_rawFE {df out : DataFrame}
    (h : rawFeatureEngineering df = Except.ok out) :
    ("price_per_sqft") ∈ names out := by
  obtain ⟨d1, d2, d3, d4, d5, d6, d7, d8, h1, h2, h3, h4, h5, h6, h7, h8, rfl⟩ := rawFE_ok h
  have hp3 : ("price_per_sqft") ∈ names d3 := by
    obtain ⟨tax, sqft, yb, bath, bed, roomf, area, _, _, _, _, _, _, _, rfl⟩ :=
      addDerived_ok h3
    exact mem_names_setCol.mpr (Or.inl (mem_names_setCol.mpr (Or.inl
      (mem_names_setCol.mpr (Or.inl (mem_names_setCol.mpr (Or.inl
        (mem_names_setCol.mpr (Or.inr rfl)))))))))
  exact names_dropZoning (names_encodeLowCard h8 (names_encodeLanduseType h7
    (names_encodeLanduseCode h6 (names_encodeHighCard h5 (names_addFlags h4 hp3)
      (by decide) (by decide) (by decide)) (by decide)) (by decide))
    (by decide) (by decide) (by decide) (by decide)) (by decide)

theorem names_after_highcard {d5 d6 d7 d8 : DataFrame} {m : String}
    (h6 : encodeLanduseCode d5 = Except.ok d6)
    (h7 : encodeLanduseType d6 = Except.ok d7)
    (h8 : encodeLowCard d7 = Except.ok d8)
    (hm : m ∈ names d5)
    (n1 : m ≠ ("propertycountylanduse_top"))
    (n2 : m ≠ ("propertylandusetype_top"))
    (n3 : m ≠ ("airconditioningtypeid")) (n4 : m ≠ ("heatingorsystemtypeid"))
    (n5 : m ≠ ("fips")) (n6 : m ≠ ("regionidcounty"))
    (n7 : m ≠ ("propertyzoningdesc")) :
    m ∈ names (dropZoning d8) :=
  names_dropZoning (names_encodeLowCard h8 (names_encodeLanduseType h7
    (names_encodeLanduseCode h6 hm n1) n2) n3 n4 n5 n6) n7

/-- C9: the transform preserves the number of rows: every column of the
output has the input row count, and `len(transform(t)) = len(t)`. -/
theorem C9_row_count_preserved {df out : DataFrame} {n : Nat}
    (hwf : WF df n) (hok : feature_engineering df = Except.ok out) :
    WF out n ∧ nrows out = nrows df := by
  rw [feature_engineering, mapError_ok] at hok
  have hwfout := WF_rawFE hwf hok
  refine ⟨hwfout, ?_⟩
  have hpr := price_mem_rawFE hok
  obtain ⟨d1, d2, d3, d4, d5, d6, d7, d8, h1, h2, h3, h4, h5, h6, h7, h8, heq⟩ :=
    rawFE_ok hok
  obtain ⟨room, bed, bath, hr, _, _, _⟩ := fixRoomCount_ok h1
  have hdfne : names df ≠ [] := by
    have hmem := getCol_mem_names hr
    intro hz
    rw [hz] at hmem
    exact List.not_mem_nil _ hmem
  rw [nrows_of_WF hwfout (List.ne_nil_of_mem hpr), nrows_of_WF hwf hdfne]

/-- Witness for C9 on the one-row table `sampleTrain`: the transform
succeeds and the output still has exactly one row in every column. -/
theorem C9_witness :
    WF sampleTrain 1 ∧
    feature_engineering sampleTrain = Except.ok sampleFEOut ∧
    WF sampleFEOut 1 ∧
    nrows sampleFEOut = nrows sampleTrain := by
  have hok : feature_engineering sampleTrain = Except.ok sampleFEOut := rfl
  have h := C9_row_count_preserved (show WF sampleTrain 1 by decide) hok
  exact ⟨by decide, hok, h.1, h.2⟩

/-- C1 counterexample: on the concrete table `sampleTrain` the transform
succeeds but the original high-cardinality source column
`propertycountylandusecode` is NOT dropped by its encoding step — it is
still present in the output and still holds a string (non-numeric) value.
The encoding steps drop only the derived `_top` columns, so the claim as
stated (originals dropped, no non-numeric column remains) is false. -/
theorem C1_counterexample :
    feature_engineering sampleTrain = Except.ok sampleFEOut ∧
    ("propertycountylandusecode") ∈ names sampleFEOut ∧
    getCol sampleFEOut ("propertycountylandusecode") = some [Cell.str ("0100")] ∧
    ("regionidcity") ∈ names sampleFEOut ∧
    ("regionidzip") ∈ names sampleFEOut ∧
    ("regionidneighborhood") ∈ names sampleFEOut ∧
    ("propertylandusetypeid") ∈ names sampleFEOut := by
  refine ⟨rfl, ?_, ?_, ?_, ?_, ?_, ?_⟩ <;> decide

/-- C1 amended: each encoding step one-hot encodes and drops only its
derived `_top` column (or, for the low-cardinality step, the encoded
column itself); the original high-cardinality source columns always
survive into the transform output. -/
theorem C1_originals_survive {df out : DataFrame}
    (hok : feature_engineering df = Except.ok out) :
    ("regionidcity") ∈ names out ∧ ("regionidzip") ∈ names out ∧
    ("regionidneighborhood") ∈ names out ∧
    ("propertycountylandusecode") ∈ names out ∧
    ("propertylandusetypeid") ∈ names out := by
  rw [feature_engineering, mapError_ok] at hok
  obtain ⟨d1, d2, d3, d4, d5, d6, d7, d8, h1, h2, h3, h4, h5, h6, h7, h8, rfl⟩ :=
    rawFE_ok hok
  obtain ⟨e1, e2, g1, g2, g3⟩ := encodeHighCard_ok h5
  obtain ⟨cl1, hcl1, _⟩ := encodeTopKNum_ok g1
  obtain ⟨cl2, hcl2, _⟩ := encodeTopKNum_ok g2
  obtain ⟨cl3, hcl3, _⟩ := encodeTopKNum_ok g3
  have m1 : ("regionidcity") ∈ names d5 :=
    names_encodeTopKNum g3 (names_encodeTopKNum g2 (names_encodeTopKNum g1
      (getCol_mem_names hcl1) (by decide)) (by decide)) (by decide)
  have m2 : ("regionidzip") ∈ names d5 :=
    names_encodeTopKNum g3 (names_encodeTopKNum g2 (getCol_mem_names hcl2)
      (by decide)) (by decide)
  have m3 : ("regionidneighborhood") ∈ names d5 :=
    names_encodeTopKNum g3 (getCol_mem_names hcl3) (by decide)
  obtain ⟨cl4, hcl4, _⟩ := encodeLanduseCode_ok h6
  obtain ⟨cl5, hcl5, _⟩ := encodeLanduseType_ok h7
  refine ⟨?_, ?_, ?_, ?_, ?_⟩
  · exact names_after_highcard h6 h7 h8 m1 (by decide) (by decide) (by decide)
      (by decide) (by decide) (by decide) (by decide)
  · exact names_after_highcard h6 h7 h8 m2 (by decide) (by decide) (by decide)
      (by decide) (by decide) (by decide) (by decide)
  · exact names_after_highcard h6 h7 h8 m3 (by decide) (by decide) (by decide)
      (by decide) (by decide) (by decide) (by decide)
  · exact names_after_highcard h6 h7 h8 (getCol_mem_names hcl4) (by decide)
      (by decide) (by decide) (by decide) (by decide) (by decide) (by decide)
  · exact names_dropZoning (names_encodeLowCard h8 (names_encodeLanduseType h7
      (getCol_mem_names hcl5) (by decide)) (by decide) (by decide) (by decide)
      (by decide)) (by decide)

/-- Witness for the amended C1 on `sampleTrain`: all five original source
columns are present in the transform output. -/
theorem C1_witness :
    feature_engineering sampleTrain = Except.ok sampleFEOut ∧
    ("regionidcity") ∈ names sampleFEOut ∧
    ("regionidzip") ∈ names sampleFEOut ∧
    ("regionidneighborhood") ∈ names sampleFEOut ∧
    ("propertycountylandusecode") ∈ names sampleFEOut ∧
    ("propertylandusetypeid") ∈ names sampleFEOut := by
  have hok : feature_engineering sampleTrain = Except.ok sampleFEOut := rfl
  have h := C1_originals_survive hok
  exact ⟨hok, h.1, h.2.1, h.2.2.1, h.2.2.2.1, h.2.2.2.2⟩

/-- C7: the orchestrator never returns the assessed-value (target) column
inside a feature matrix; each target vector has exactly the feature
table's row count; and target and features are row-aligned, both being
columns of the same transformed table. -/
theorem C7_target_removed {train test Xtr Xte : DataFrame} {ytr yte : Col} {n m : Nat}
    (hwf1 : WF train n) (hwf2 : WF test m)
    (hok : initiate_data_transformation train test = Except.ok (Xtr, Xte, ytr, yte)) :
    targetCol ∉ names Xtr ∧ targetCol ∉ names Xte ∧
    ytr.length = n ∧ yte.length = m ∧
    WF Xtr n ∧ WF Xte m ∧ nrows Xtr = n ∧ nrows Xte = m ∧
    ∃ trainT testT : DataFrame,
      feature_engineering train = Except.ok trainT ∧
      feature_engineering test = Except.ok testT ∧
      getCol trainT targetCol = some ytr ∧ getCol testT targetCol = some yte ∧
      Xtr = eraseCols trainT [targetCol] ∧ Xte = eraseCols testT [targetCol] ∧
      (∀ (k : String) (c2 : Col), getCol Xtr k = some c2 → getCol trainT k = some c2) ∧
      (∀ (k : String) (c2 : Col), getCol Xte k = some c2 → getCol testT k = some c2) := by
  rw [initiate_data_transformation, mapError_ok] at hok
  unfold rawInitiate at hok
  obtain ⟨trainT, e1, hok⟩ := bind_ok_elim hok
  obtain ⟨testT, e2, hok⟩ := bind_ok_elim hok
  obtain ⟨Xtr2, e3, hok⟩ := bind_ok_elim hok
  obtain ⟨ytr2, e4, hok⟩ := bind_ok_elim hok
  obtain ⟨Xte2, e5, hok⟩ := bind_ok_elim hok
  obtain ⟨yte2, e6, hok⟩ := bind_ok_elim hok
  have hq := Except.ok.inj hok
  simp only [Prod.mk.injEq] at hq
  obtain ⟨hq1, hq2, hq3, hq4⟩ := hq
  obtain rfl : Xtr = Xtr2 := hq1.symm
  obtain rfl : Xte = Xte2 := hq2.symm
  obtain rfl : ytr = ytr2 := hq3.symm
  obtain rfl : yte = yte2 := hq4.symm
  obtain ⟨_, hXtr⟩ := dropColsE_ok.mp e3
  obtain ⟨_, hXte⟩ := dropColsE_ok.mp e5
  rw [getColE_ok] at e4 e6
  have hraw1 : rawFeatureEngineering train = Except.ok trainT := mapError_ok.mp e1
  have hraw2 : rawFeatureEngineering test = Except.ok testT := mapError_ok.mp e2
  have hwfT1 : WF trainT n := WF_rawFE hwf1 hraw1
  have hwfT2 : WF testT m := WF_rawFE hwf2 hraw2
  have hp1 : ("price_per_sqft") ∈ names Xtr := by
    rw [hXtr, mem_names_eraseCols]
    exact ⟨price_mem_rawFE hraw1, by decide⟩
  have hp2 : ("price_per_sqft") ∈ names Xte := by
    rw [hXte, mem_names_eraseCols]
    exact ⟨price_mem_rawFE hraw2, by decide⟩
  have hnotin1 : targetCol ∉ names Xtr := by
    rw [hXtr]
    intro hmem
    exact (mem_names_eraseCols.mp hmem).2 (by decide)
  have hnotin2 : targetCol ∉ names Xte := by
    rw [hXte]
    intro hmem
    exact (mem_names_eraseCols.mp hmem).2 (by decide)
  have hwfX1 : WF Xtr n := hXtr ▸ WF_eraseCols hwfT1
  have hwfX2 : WF Xte m := hXte ▸ WF_eraseCols hwfT2
  refine ⟨hnotin1, hnotin2, WF_getCol_length hwfT1 e4, WF_getCol_length hwfT2 e6,
    hwfX1, hwfX2, nrows_of_WF hwfX1 (List.ne_nil_of_mem hp1),
    nrows_of_WF hwfX2 (List.ne_nil_of_mem hp2),
    trainT, testT, e1, e2, e4, e6, hXtr, hXte, ?_, ?_⟩
  · intro k c2 hgc
    have hk : k ∉ [targetCol] :=
      (mem_names_eraseCols.mp (getCol_mem_names (hXtr ▸ hgc))).2
    rw [hXtr, getCol_eraseCols hk] at hgc
    exact hgc
  · intro k c2 hgc
    have hk : k ∉ [targetCol] :=
      (mem_names_eraseCols.mp (getCol_mem_names (hXte ▸ hgc))).2
    rw [hXte, getCol_eraseCols hk] at hgc
    exact hgc

/-- Witness for C7 on two one-row tables: the target column is absent from
both returned feature matrices and both target vectors have length 1. -/
theorem C7_witness :
    WF sampleTrain 1 ∧
    initiate_data_transformation sampleTrain sampleTrain =
      Except.ok (sampleQuad.1, sampleQuad.2.1, sampleQuad.2.2.1, sampleQuad.2.2.2) ∧
    targetCol ∉ names sampleQuad.1 ∧ targetCol ∉ names sampleQuad.2.1 ∧
    sampleQuad.2.2.1.length = 1 ∧ sampleQuad.2.2.2.length = 1 ∧
    nrows sampleQuad.1 = 1 ∧ nrows sampleQuad.2.1 = 1 := by
  have hok : initiate_data_transformation sampleTrain sampleTrain =
      Except.ok (sampleQuad.1, sampleQuad.2.1, sampleQuad.2.2.1, sampleQuad.2.2.2) := rfl
  obtain ⟨w1, w2, w3, w4, w5, w6, w7, w8, _⟩ :=
    C7_target_removed (n := 1) (m := 1) (by decide) (by decide) hok
  exact ⟨by decide, hok, w1, w2, w3, w4, w7, w8⟩

/-! ## Lemmas about the insertion sorts used by the encodings. -/

theorem insertSorted_perm (le : Cell → Cell → Bool) (x : Cell) (l : List Cell) :
    (insertSorted le x l).Perm (x :: l) := by
  induction l with
  | nil => exact List.Perm.refl _
  | cons y ys ih =>
    rw [insertSorted]
    by_cases h : le x y
    · rw [if_pos h]
    · rw [if_neg h]
      exact (List.Perm.cons y ih).trans (List.Perm.swap x y ys)

theorem sortByLe_perm (le : Cell → Cell → Bool) (l : List Cell) :
    (sortByLe le l).Perm l := by
  induction l with
  | nil => exact List.Perm.refl _
  | cons x xs ih =>
    rw [sortByLe, List.foldr_cons]
    exact (insertSorted_perm le x (sortByLe le xs)).trans (List.Perm.cons x ih)

theorem mem_sortByLe {le : Cell → Cell → Bool} {l : List Cell} {x : Cell} :
    x ∈ sortByLe le l ↔ x ∈ l :=
  (sortByLe_perm le l).mem_iff

theorem sortByLe_eq_self {le : Cell → Cell → Bool} {l : List Cell}
    (h : l.Pairwise (fun a b => le a b = true)) : sortByLe le l = l := by
  induction l with
  | nil => rfl
  | cons x xs ih =>
    rw [List.pairwise_cons] at h
    rw [sortByLe, List.foldr_cons]
    have hxs : sortByLe le xs = xs := ih h.2
    rw [show xs.foldr (insertSorted le) [] = sortByLe le xs from rfl, hxs]
    cases xs with
    | nil => rfl
    | cons y ys =>
      rw [insertSorted, if_pos (h.1 y (List.mem_cons_self y ys))]

theorem countCell_ne_imp_ne (cl : Col) {x y : Cell}
    (h : countCell cl x ≠ countCell cl y) : x ≠ y :=
  fun heq => h (heq ▸ rfl)

theorem topK_of_seven {cl : Col} {v1 v2 v3 v4 v5 v6 v7 : ℚ}
    (hded : (nonNan cl).dedup = [Cell.num v1, Cell.num v2, Cell.num v3,
      Cell.num v4, Cell.num v5, Cell.num v6, Cell.num v7])
    (h12 : countCell cl (Cell.num v2) < countCell cl (Cell.num v1))
    (h23 : countCell cl (Cell.num v3) < countCell cl (Cell.num v2))
    (h34 : countCell cl (Cell.num v4) < countCell cl (Cell.num v3))
    (h45 : countCell cl (Cell.num v5) < countCell cl (Cell.num v4))
    (h56 : countCell cl (Cell.num v6) < countCell cl (Cell.num v5))
    (h67 : countCell cl (Cell.num v7) < countCell cl (Cell.num v6)) :
    topK cl 5 = [Cell.num v1, Cell.num v2, Cell.num v3, Cell.num v4, Cell.num v5] := by
  have hpw : List.Pairwise
      (fun a b => (decide (countCell cl b ≤ countCell cl a)) = true)
      [Cell.num v1, Cell.num v2, Cell.num v3, Cell.num v4, Cell.num v5,
        Cell.num v6, Cell.num v7] := by
    refine List.Pairwise.cons ?_ (List.Pairwise.cons ?_ (List.Pairwise.cons ?_
      (List.Pairwise.cons ?_ (List.Pairwise.cons ?_ (List.Pairwise.cons ?_
        (List.Pairwise.cons ?_ List.Pairwise.nil)))))) <;>
      (intro b hb
       fin_cases hb <;> (simp only [decide_eq_true_eq]; omega))
  rw [topK, hded, sortByLe_eq_self hpw]
  rfl

/-- C3: with K = 5 and a land-use-type column holding exactly seven
distinct values of strictly decreasing frequencies, the two least-frequent
values are both sent to the `"other"` sentinel and are not among the
encoded categories; the five most frequent values and the sentinel are
exactly the six categories, the first of which is dropped as the reference
level, so the stage appends one indicator column per remaining category. -/
theorem C3_topk_encoding {df out : DataFrame} {cl : Col} {v1 v2 v3 v4 v5 v6 v7 : ℚ}
    (hc : getCol df ("propertylandusetypeid") = some cl)
    (hded : (nonNan cl).dedup = [Cell.num v1, Cell.num v2, Cell.num v3,
      Cell.num v4, Cell.num v5, Cell.num v6, Cell.num v7])
    (h12 : countCell cl (Cell.num v2) < countCell cl (Cell.num v1))
    (h23 : countCell cl (Cell.num v3) < countCell cl (Cell.num v2))
    (h34 : countCell cl (Cell.num v4) < countCell cl (Cell.num v3))
    (h45 : countCell cl (Cell.num v5) < countCell cl (Cell.num v4))
    (h56 : countCell cl (Cell.num v6) < countCell cl (Cell.num v5))
    (h67 : countCell cl (Cell.num v7) < countCell cl (Cell.num v6))
    (hok : encodeLanduseType df = Except.ok out) :
    topK cl 5 = [Cell.num v1, Cell.num v2, Cell.num v3, Cell.num v4, Cell.num v5] ∧
    (∀ (i : Nat) (x : Cell), cl[i]? = some x →
      (x = Cell.num v6 ∨ x = Cell.num v7) →
      (topMapOther cl 5)[i]? = some otherCell) ∧
    Cell.num v6 ∉ dummyCats (topMapOther cl 5) ∧
    Cell.num v7 ∉ dummyCats (topMapOther cl 5) ∧
    (∀ x ∈ [Cell.num v1, Cell.num v2, Cell.num v3, Cell.num v4, Cell.num v5],
      x ∈ dummyCats (topMapOther cl 5)) ∧
    otherCell ∈ dummyCats (topMapOther cl 5) ∧
    (dummyCats (topMapOther cl 5)).length = 6 ∧
    names out =
      names (eraseCols (setCol df ("propertylandusetype_top") (topMapOther cl 5))
        [("propertylandusetype_top")]) ++
      ((dummyCats (topMapOther cl 5)).drop 1).map
        (dummyName ("propertylandusetype_top")) := by
  have htop := topK_of_seven hded h12 h23 h34 h45 h56 h67
  have hM : topMapOther cl 5 =
      cl.map (fun x => if x ∈ topK cl 5 then x else otherCell) := rfl
  rw [htop] at hM
  have h6notin : Cell.num v6 ∉
      [Cell.num v1, Cell.num v2, Cell.num v3, Cell.num v4, Cell.num v5] := by
    simp only [List.mem_cons, List.not_mem_nil, or_false, not_or]
    exact ⟨countCell_ne_imp_ne cl (by omega), countCell_ne_imp_ne cl (by omega),
      countCell_ne_imp_ne cl (by omega), countCell_ne_imp_ne cl (by omega),
      countCell_ne_imp_ne cl (by omega)⟩
  have h7notin : Cell.num v7 ∉
      [Cell.num v1, Cell.num v2, Cell.num v3, Cell.num v4, Cell.num v5] := by
    simp only [List.mem_cons, List.not_mem_nil, or_false, not_or]
    exact ⟨countCell_ne_imp_ne cl (by omega), countCell_ne_imp_ne cl (by omega),
      countCell_ne_imp_ne cl (by omega), countCell_ne_imp_ne cl (by omega),
      countCell_ne_imp_ne cl (by omega)⟩
  have hmemcl : ∀ x ∈ [Cell.num v1, Cell.num v2, Cell.num v3, Cell.num v4,
      Cell.num v5, Cell.num v6, Cell.num v7], x ∈ cl := by
    intro x hx
    have hxd : x ∈ (nonNan cl).dedup := by
      rw [hded]
      exact hx
    exact List.mem_of_mem_filter (List.mem_dedup.mp hxd)
  have hchar : ∀ y : Cell,
      y ∈ (nonNan (topMapOther cl 5)).dedup ↔
        y ∈ [Cell.num v1, Cell.num v2, Cell.num v3, Cell.num v4, Cell.num v5,
          otherCell] := by
    intro y
    rw [List.mem_dedup, nonNan, List.mem_filter]
    constructor
    · rintro ⟨hy, _⟩
      rw [hM, List.mem_map] at hy
      obtain ⟨x, hxcl, rfl⟩ := hy
      by_cases hx : x ∈ [Cell.num v1, Cell.num v2, Cell.num v3, Cell.num v4,
          Cell.num v5]
      · rw [if_pos hx]
        simp only [List.mem_cons, List.not_mem_nil, or_false] at hx ⊢
        tauto
      · rw [if_neg hx]
        simp
    · intro hy
      simp only [List.mem_cons, List.not_mem_nil, or_false] at hy
      have hstep : ∀ z ∈ [Cell.num v1, Cell.num v2, Cell.num v3, Cell.num v4,
          Cell.num v5], z ∈ topMapOther cl 5 := by
        intro z hz
        rw [hM, List.mem_map]
        refine ⟨z, hmemcl z ?_, if_pos hz⟩
        simp only [List.mem_cons, List.not_mem_nil, or_false] at hz ⊢
        tauto
      rcases hy with rfl | rfl | rfl | rfl | rfl | rfl
      · exact ⟨hstep _ (by simp), by simp⟩
      · exact ⟨hstep _ (by simp), by simp⟩
      · exact ⟨hstep _ (by simp), by simp⟩
      · exact ⟨hstep _ (by simp), by simp⟩
      · exact ⟨hstep _ (by simp), by simp⟩
      · refine ⟨?_, by simp [otherCell]⟩
        rw [hM, List.mem_map]
        exact ⟨Cell.num v6, hmemcl _ (by simp), if_neg h6notin⟩
  have hnodup6 : List.Nodup [Cell.num v1, Cell.num v2, Cell.num v3, Cell.num v4,
      Cell.num v5, otherCell] := by
    simp only [List.nodup_cons, List.mem_cons, List.not_mem_nil, or_false, not_or,
      List.nodup_nil, and_true]
    refine ⟨⟨countCell_ne_imp_ne cl (by omega), countCell_ne_imp_ne cl (by omega),
        countCell_ne_imp_ne cl (by omega), countCell_ne_imp_ne cl (by omega),
        by simp [otherCell]⟩,
      ⟨countCell_ne_imp_ne cl (by omega), countCell_ne_imp_ne cl (by omega),
        countCell_ne_imp_ne cl (by omega), by simp [otherCell]⟩,
      ⟨countCell_ne_imp_ne cl (by omega), countCell_ne_imp_ne cl (by omega),
        by simp [otherCell]⟩,
      ⟨countCell_ne_imp_ne cl (by omega), by simp [otherCell]⟩,
      by simp [otherCell]⟩
  refine ⟨htop, ?_, ?_, ?_, ?_, ?_, ?_, ?_⟩
  · intro i x hxi hor
    rw [hM, List.getElem?_map, hxi, Option.map_some']
    rcases hor with rfl | rfl
    · rw [if_neg h6notin]
    · rw [if_neg h7notin]
  · intro hmem6
    rw [dummyCats, mem_sortByLe, hchar] at hmem6
    simp only [List.mem_cons, List.not_mem_nil, or_false] at hmem6
    rcases hmem6 with h | h | h | h | h | h
    · exact countCell_ne_imp_ne cl (by omega) h
    · exact countCell_ne_imp_ne cl (by omega) h
    · exact countCell_ne_imp_ne cl (by omega) h
    · exact countCell_ne_imp_ne cl (by omega) h
    · exact countCell_ne_imp_ne cl (by omega) h
    · exact (by simp [otherCell] : Cell.num v6 ≠ otherCell) h
  · intro hmem7
    rw [dummyCats, mem_sortByLe, hchar] at hmem7
    simp only [List.mem_cons, List.not_mem_nil, or_false] at hmem7
    rcases hmem7 with h | h | h | h | h | h
    · exact countCell_ne_imp_ne cl (by omega) h
    · exact countCell_ne_imp_ne cl (by omega) h
    · exact countCell_ne_imp_ne cl (by omega) h
    · exact countCell_ne_imp_ne cl (by omega) h
    · exact countCell_ne_imp_ne cl (by omega) h
    · exact (by simp [otherCell] : Cell.num v7 ≠ otherCell) h
  · intro x hx
    rw [dummyCats, mem_sortByLe, hchar]
    simp only [List.mem_cons, List.not_mem_nil, or_false] at hx ⊢
    tauto
  · rw [dummyCats, mem_sortByLe, hchar]
    simp
  · have hperm6 : (nonNan (topMapOther cl 5)).dedup.Perm
        [Cell.num v1, Cell.num v2, Cell.num v3, Cell.num v4, Cell.num v5,
          otherCell] := by
      apply List.perm_of_nodup_nodup_toFinset_eq (List.nodup_dedup _) hnodup6
      ext y
      simp only [List.mem_toFinset]
      exact hchar y
    have hlen := ((sortByLe_perm cellLe (nonNan (topMapOther cl 5)).dedup).length_eq).trans
      hperm6.length_eq
    rw [dummyCats]
    simpa using hlen
  · obtain ⟨cl2, hcl2, hout⟩ := encodeLanduseType_ok hok
    rw [hc] at hcl2
    obtain rfl : cl = cl2 := Option.some.inj hcl2
    rw [hout, names_append]
    congr 1
    rw [names, List.map_map]
    rfl

/-- Witness for C3 on `landuseCol` (seven distinct values, frequencies
7..1): the top five values are 1..5, the values 6 and 7 are not among the
encoded categories, and exactly six categories (the five top values plus
the `"other"` sentinel) are formed, the first being dropped. -/
theorem C3_witness :
    encodeLanduseType landuseDf = Except.ok landuseOut ∧
    (nonNan landuseCol).dedup = [Cell.num 1, Cell.num 2, Cell.num 3, Cell.num 4,
      Cell.num 5, Cell.num 6, Cell.num 7] ∧
    countCell landuseCol (Cell.num 7) < countCell landuseCol (Cell.num 6) ∧
    topK landuseCol 5 = [Cell.num 1, Cell.num 2, Cell.num 3, Cell.num 4, Cell.num 5] ∧
    Cell.num 6 ∉ dummyCats (topMapOther landuseCol 5) ∧
    Cell.num 7 ∉ dummyCats (topMapOther landuseCol 5) ∧
    Cell.num 2 ∈ dummyCats (topMapOther landuseCol 5) ∧
    otherCell ∈ dummyCats (topMapOther landuseCol 5) ∧
    (dummyCats (topMapOther landuseCol 5)).length = 6 := by
  have hok : encodeLanduseType landuseDf = Except.ok landuseOut := rfl
  obtain ⟨w1, w2, w3, w4, w5, w6, w7, w8⟩ :=
    @C3_topk_encoding landuseDf landuseOut landuseCol 1 2 3 4 5 6 7
      rfl (by decide) (by decide) (by decide) (by decide) (by decide) (by decide)
      (by decide) hok
  exact ⟨hok, by decide, by decide, w1, w3, w4, w5 _ (by decide), w6, w7⟩

end ZillowTransform
